import Mathlib

/-!
# fosite: request model, implicit grant handler, JWT strategy

A shallow embedding of `request.go` (the `Request` carrier with `GrantScope`
and `Merge`), of `handler/core/implicit/implicit.go` (the implicit grant
handler) and of `token/jwt/jwt.go` (the RS256 JWT strategy), with a model of
the pipeline dispatcher taken from the specification, followed by the
properties established about them.

Conventions of the embedding.

* Go slices of strings are lists, `append` is list concatenation at the end.
* A Go map is an association list with distinct keys; a nil map is `none`.
* A pointer receiver that is mutated becomes a value passed in and returned.
* Collaborators reached through an interface (token strategy, token storage)
  are functions of their arguments; every invocation is recorded in a log so
  that the number and the arguments of the calls can be stated.
* `context.Context` and `*http.Request` arguments are never read by the code
  embedded here and are left out.
* An assignment to an entry of a nil map is a run-time panic; the functions that
  can reach one (`Merge`, `assign`) return the state at that point with a flag.
* Functions of third-party packages (`jwt-go`, `crypto/rsa`) are parameters.
-/

namespace Fosite

/-! ## Strings and integers of the Go runtime used by the code -/

/-- Two's complement reading of an integer in `w` bits. -/
def wrapSigned (w : Nat) (x : Int) : Int :=
  (x + 2 ^ (w - 1)) % 2 ^ w - 2 ^ (w - 1)

/-- Membership in the range of Go's `int64`. -/
def inInt64 (x : Int) : Prop := -(2 ^ 63) ≤ x ∧ x < 2 ^ 63

instance (x : Int) : Decidable (inInt64 x) := by
  unfold inInt64; infer_instance

/-- Width of Go's `int` on the 64-bit targets considered here. -/
def intSize : Nat := 64

/-- Go conversion `int(x)` of an `int64` value. -/
def goInt (x : Int) : Int := wrapSigned intSize x

/-- Go constant `time.Second`, a `time.Duration` counted in nanoseconds. -/
def Second : Int := 1000000000

/-- Go `/` on `time.Duration` (an `int64`): the quotient truncated toward zero. -/
def durationDiv (a b : Int) : Int := wrapSigned 64 (Int.tdiv a b)

/-- Go `strconv.Itoa`: base-10 rendering, with a leading minus sign when negative. -/
def Itoa (i : Int) : String :=
  if i < 0 then "-" ++ Nat.repr i.natAbs else Nat.repr i.natAbs

/-- Go `strings.Join`: the elements separated by `sep`. -/
def Join (elems : List String) (sep : String) : String :=
  match elems with
  | [] => ""
  | first :: rest => rest.foldl (fun acc s => acc ++ sep ++ s) first

/-! ## Data model -/

/-- Go type `Arguments`, a slice of strings. -/
abbrev Arguments := List String

/-- Modelled from the spec: `Arguments.Has` is declared outside the files at hand;
the validators ask whether the set "contains" the item. -/
def Arguments.Has (r : Arguments) (item : String) : Bool :=
  r.any (fun has => decide (item = has))

/-- Modelled from the spec: `Arguments.Exact` is declared outside the files at hand;
the dispatch rule asks whether the request declares "exactly" the one type. -/
def Arguments.Exact (r : Arguments) (name : String) : Bool :=
  decide (r = [name])

/-- Modelled from the spec: the `Client` interface and its implementation are
declared outside the files at hand; a client is a registered principal with an
identifier, a hashed secret, allowed response types, allowed grant types,
allowed scopes and redirect URIs. -/
structure Client where
  ID : String
  Secret : List Nat
  RedirectURIs : List String
  GrantTypes : Arguments
  ResponseTypes : Arguments
  Scopes : Arguments
deriving DecidableEq, Repr

/-- Getter `Client.GetResponseTypes`. -/
def Client.GetResponseTypes (c : Client) : Arguments := c.ResponseTypes

/-- Getter `Client.GetGrantTypes`. -/
def Client.GetGrantTypes (c : Client) : Arguments := c.GrantTypes

/-- Zero value `&DefaultClient{}` placed in a fresh request. -/
def DefaultClient : Client :=
  { ID := "", Secret := [], RedirectURIs := [], GrantTypes := [], ResponseTypes := [], Scopes := [] }

/-- Go `time.Time`, kept as an instant counted in nanoseconds. -/
structure Time where
  nanos : Int
deriving DecidableEq, Repr

/-- Go `url.Values` when not nil: string keys, each with a list of values. -/
abbrev Values := AList (fun _ : String => List String)

/-- Go `a.Form[k] = v` on a map that is not nil. -/
def Values.set (m : Values) (k : String) (v : List String) : Values :=
  m.insert k v

/-- Go struct `Request`; the session is an `interface{}` whose content the code
never inspects (`none` is the nil interface), the form is a map (`none` is the nil map). -/
structure Request (σ : Type) where
  RequestedAt : Time
  Client : Client
  Scopes : Arguments
  GrantedScopes : Arguments
  Form : Option Values
  Session : Option σ

variable {σ : Type}

/-- Go `NewRequest`; the reading of the clock `time.Now()` is the argument. -/
def NewRequest (now : Time) : Request σ :=
  { Client := DefaultClient
    Scopes := []
    GrantedScopes := []
    Form := some ∅
    RequestedAt := now
    Session := none }

def Request.GetRequestForm (a : Request σ) : Option Values := a.Form

def Request.GetRequestedAt (a : Request σ) : Time := a.RequestedAt

def Request.GetClient (a : Request σ) : Fosite.Client := a.Client

def Request.GetScopes (a : Request σ) : Arguments := a.Scopes

def Request.SetScopes (a : Request σ) (s : Arguments) : Request σ :=
  { a with Scopes := s }

def Request.GetGrantedScopes (a : Request σ) : Arguments := a.GrantedScopes

/-- The loop of `GrantScope`: `true` as soon as an element equal to `scope` is met
(the early `return`), `false` when the range is exhausted. -/
def Request.grantScopeFound (scope : String) : List String → Bool
  | [] => false
  | has :: rest => if scope = has then true else Request.grantScopeFound scope rest

/-- Go `(*Request).GrantScope`. -/
def Request.GrantScope (a : Request σ) (scope : String) : Request σ :=
  if Request.grantScopeFound scope a.GrantedScopes then a
  else { a with GrantedScopes := a.GrantedScopes ++ [scope] }

def Request.SetSession (a : Request σ) (session : Option σ) : Request σ :=
  { a with Session := session }

def Request.GetSession (a : Request σ) : Option σ := a.Session

/-- Go `v, ok := f[k]` on a form: `none` when `ok` is false; a nil map has no key. -/
def Request.formLookup (f : Option Values) (k : String) : Option (List String) :=
  match f with
  | none => none
  | some m => m.lookup k

/-- What a call of `Merge` leaves behind: the receiver as it stands when the call
stops, and whether it stopped by the run-time panic of an assignment to an entry
of a nil map. -/
structure MergeOutcome (σ : Type) where
  target : Request σ
  panicked : Bool

/-- The last loop of `Merge`, `for k, v := range form { a.Form[k] = v }`, on the
entries of the source form: a nil target map panics at the first assignment. -/
def Request.mergeForm (target : Option Values) (entries : List (Sigma fun _ : String => List String)) :
    Option Values × Bool :=
  match entries with
  | [] => (target, false)
  | _ :: _ =>
    match target with
    | none => (none, true)
    | some m => (some (entries.foldl (fun acc e => Values.set acc e.1 e.2) m), false)

/-- Entries visited by `range` over a form; a nil map has none. -/
def Request.formEntries (f : Option Values) : List (Sigma fun _ : String => List String) :=
  match f with
  | none => []
  | some m => m.entries

/-- Go `(*Request).Merge`. -/
def Request.Merge (a request : Request σ) : MergeOutcome σ :=
  let scopes := request.GetScopes.foldl (fun acc scope => acc ++ [scope]) a.Scopes
  let granted := request.GetGrantedScopes.foldl (fun acc scope => acc ++ [scope]) a.GrantedScopes
  let form := Request.mergeForm a.Form (Request.formEntries request.GetRequestForm)
  { target :=
      { Scopes := scopes
        GrantedScopes := granted
        RequestedAt := request.GetRequestedAt
        Client := request.GetClient
        Session := request.GetSession
        Form := form.1 }
    panicked := form.2 }

/-! ## Authorize request, response sink, errors and collaborators -/

/-- Modelled from the spec: the `AuthorizeRequester` implementation is declared outside
the files at hand; an authorize request is a `Request` that also declares its response
types, carries the caller-supplied opaque state, and accumulates the response types
that handlers have marked as handled. -/
structure AuthorizeRequest (σ : Type) where
  ResponseTypes : Arguments
  HandledResponseTypes : Arguments
  State : String
  Request : Request σ

def AuthorizeRequest.GetResponseTypes (ar : AuthorizeRequest σ) : Arguments := ar.ResponseTypes

def AuthorizeRequest.GetState (ar : AuthorizeRequest σ) : String := ar.State

def AuthorizeRequest.GetClient (ar : AuthorizeRequest σ) : Client := ar.Request.GetClient

def AuthorizeRequest.GetGrantedScopes (ar : AuthorizeRequest σ) : Arguments :=
  ar.Request.GetGrantedScopes

/-- Modelled from the spec: `SetResponseTypeHandled` is declared outside the files at
hand; a handler "marks the type as handled" and the dispatcher later checks the marks. -/
def AuthorizeRequest.SetResponseTypeHandled (ar : AuthorizeRequest σ) (name : String) :
    AuthorizeRequest σ :=
  { ar with HandledResponseTypes := ar.HandledResponseTypes ++ [name] }

/-- Modelled from the spec: the `AuthorizeResponder` implementation is declared outside
the files at hand; the fragment channel is a write-only sink of key/value pairs whose
order is the insertion order produced by the handler. -/
structure AuthorizeResponse where
  Fragment : List (String × String)
deriving DecidableEq, Repr

/-- Modelled from the spec: `AddFragment` is declared outside the files at hand; it
appends one key/value pair to the fragment channel. -/
def AuthorizeResponse.AddFragment (resp : AuthorizeResponse) (key value : String) :
    AuthorizeResponse :=
  { resp with Fragment := resp.Fragment ++ [(key, value)] }

/-- Modelled from the spec: the error values `ErrInvalidGrant`, `ErrServerError`, ... are
declared outside the files at hand; these are the error codes surfaced to the boundary. -/
inductive ErrorCode where
  | invalid_request
  | invalid_client
  | invalid_grant
  | unauthorized_client
  | unsupported_grant_type
  | unsupported_response_type
  | invalid_scope
  | server_error
deriving DecidableEq, Repr

def ErrInvalidGrant : ErrorCode := ErrorCode.invalid_grant

def ErrServerError : ErrorCode := ErrorCode.server_error

/-- A non-nil result of `errors.Wrap(cause, message)`: the classified cause and the
message put in front of it. -/
structure WrappedError where
  cause : ErrorCode
  message : String
deriving DecidableEq, Repr

/-- Go `errors.Wrap` applied to one of the classified error values. -/
def Wrap (cause : ErrorCode) (message : String) : WrappedError :=
  { cause := cause, message := message }

/-- Interface `core.AccessTokenStrategy` as the handler uses it: the token and its
signature, or an error given by its text `err.Error()`. -/
structure AccessTokenStrategy (σ : Type) where
  GenerateAccessToken : AuthorizeRequest σ → Except String (String × String)

/-- Interface `core.AccessTokenStorage` as the handler uses it: `none` is a nil
error, `some text` an error given by its text `err.Error()`. -/
structure AccessTokenStorage (σ : Type) where
  CreateAccessTokenSession : String → AuthorizeRequest σ → Option String

/-- One invocation of a collaborator, with the arguments it was given. -/
inductive Call (σ : Type) where
  | GenerateAccessToken (ar : AuthorizeRequest σ)
  | CreateAccessTokenSession (signature : String) (ar : AuthorizeRequest σ)

/-- Whether an invocation is one of the strategy. -/
def Call.isGenerate : Call σ → Bool
  | Call.GenerateAccessToken _ => true
  | Call.CreateAccessTokenSession _ _ => false

/-- Whether an invocation is one of the storage collaborator. -/
def Call.isCreate : Call σ → Bool
  | Call.GenerateAccessToken _ => false
  | Call.CreateAccessTokenSession _ _ => true

/-- Everything a handler run can read or change: the request, the response, and the
log of collaborator invocations made so far (oldest first). -/
structure Run (σ : Type) where
  ar : AuthorizeRequest σ
  resp : AuthorizeResponse
  calls : List (Call σ)

/-- A call of `GenerateAccessToken` through the interface: the answer of the strategy on
the request it is given, and the log with this invocation recorded. -/
def AccessTokenStrategy.invoke (s : AccessTokenStrategy σ) (ar : AuthorizeRequest σ)
    (calls : List (Call σ)) : Except String (String × String) × List (Call σ) :=
  (s.GenerateAccessToken ar, calls ++ [Call.GenerateAccessToken ar])

/-- A call of `CreateAccessTokenSession` through the interface: the answer of the storage
on the key and the request it is given, and the log with this invocation recorded. -/
def AccessTokenStorage.invoke (s : AccessTokenStorage σ) (signature : String)
    (ar : AuthorizeRequest σ) (calls : List (Call σ)) : Option String × List (Call σ) :=
  (s.CreateAccessTokenSession signature ar, calls ++ [Call.CreateAccessTokenSession signature ar])

/-- Number of invocations of the strategy recorded in a log. -/
def strategyCalls (calls : List (Call σ)) : Nat := calls.countP Call.isGenerate

/-- Number of invocations of `CreateAccessTokenSession` recorded in a log. -/
def storageCalls (calls : List (Call σ)) : Nat := calls.countP Call.isCreate

/-! ## The implicit grant handler -/

/-- Go struct `AuthorizeImplicitGrantTypeHandler`; the lifespan is a `time.Duration`,
an `int64` count of nanoseconds. -/
structure AuthorizeImplicitGrantTypeHandler (σ : Type) where
  AccessTokenStrategy : AccessTokenStrategy σ
  AccessTokenStorage : AccessTokenStorage σ
  AccessTokenLifespan : Int

/-- Go `(*AuthorizeImplicitGrantTypeHandler).IssueImplicitAccessToken`: the returned
error (`none` is nil) and the run as the call leaves it. -/
def AuthorizeImplicitGrantTypeHandler.IssueImplicitAccessToken
    (c : AuthorizeImplicitGrantTypeHandler σ) (w : Run σ) : Option WrappedError × Run σ :=
  let generated := c.AccessTokenStrategy.invoke w.ar w.calls
  let w1 : Run σ := { w with calls := generated.2 }
  match generated.1 with
  | Except.error err => (some (Wrap ErrServerError err), w1)
  | Except.ok (token, signature) =>
    let stored := c.AccessTokenStorage.invoke signature w.ar w1.calls
    let w2 : Run σ := { w1 with calls := stored.2 }
    match stored.1 with
    | some err => (some (Wrap ErrServerError err), w2)
    | none =>
      let resp := w2.resp.AddFragment "access_token" token
      let resp := resp.AddFragment "expires_in"
        (Itoa (goInt (durationDiv c.AccessTokenLifespan Second)))
      let resp := resp.AddFragment "token_type" "bearer"
      let resp := resp.AddFragment "state" w2.ar.GetState
      let resp := resp.AddFragment "scope" (Join w2.ar.GetGrantedScopes "+")
      let ar := w2.ar.SetResponseTypeHandled "token"
      (none, { w2 with ar := ar, resp := resp })

/-- Go `(*AuthorizeImplicitGrantTypeHandler).HandleAuthorizeEndpointRequest`. -/
def AuthorizeImplicitGrantTypeHandler.HandleAuthorizeEndpointRequest
    (c : AuthorizeImplicitGrantTypeHandler σ) (w : Run σ) : Option WrappedError × Run σ :=
  if !(w.ar.GetResponseTypes.Exact "token") then (none, w)
  else if !(w.ar.GetClient.GetResponseTypes.Has "token") then (some (Wrap ErrInvalidGrant ""), w)
  else if !(w.ar.GetClient.GetGrantTypes.Has "implicit") then (some (Wrap ErrInvalidGrant ""), w)
  else c.IssueImplicitAccessToken w

/-! ## The JWT strategy (`token/jwt/jwt.go`)

Go strings are rendered as `String`; the delimiter `.` is a single byte that occurs in no
multi-byte sequence of UTF-8, so cutting at the character and cutting at the byte agree.
An `error` is kept as its text, `none` being the nil error. The functions of the packages
`jwt-go` and `crypto/rsa` that the strategy calls are not code of this repository; they
are parameters of the embedding. -/

variable {ν κ : Type}

/-- Go `map[string]interface{}` when not nil; `ν` stands for the values it holds. -/
abbrev JMap (ν : Type) := AList (fun _ : String => ν)

/-- Go `v, ok := m[k]`: `none` when `ok` is false; a nil map has no key. -/
def mapLookup (m : Option (JMap ν)) (k : String) : Option ν :=
  match m with
  | none => none
  | some m => m.lookup k

/-- Entries visited by `range` over a map; a nil map has none. -/
def mapEntries (m : Option (JMap ν)) : List (Sigma fun _ : String => ν) :=
  match m with
  | none => []
  | some m => m.entries

/-- What a call of `assign` leaves behind: the map `a` as it stands when the call stops,
and whether it stopped by the run-time panic of an assignment to an entry of a nil map. -/
structure AssignOutcome (ν : Type) where
  result : Option (JMap ν)
  panicked : Bool

/-- The loop of `assign` over the entries of `b`: an entry whose key `a` already has is
skipped (`continue`), any other is stored by `a[k] = w`. -/
def assignLoop (a : Option (JMap ν)) : List (Sigma fun _ : String => ν) → AssignOutcome ν
  | [] => { result := a, panicked := false }
  | e :: rest =>
    match a with
    | none => { result := none, panicked := true }
    | some m =>
      if (m.lookup e.1).isSome then assignLoop (some m) rest
      else assignLoop (some (m.insert e.1 e.2)) rest

/-- Go `assign`. -/
def assign (a b : Option (JMap ν)) : AssignOutcome ν :=
  assignLoop a (mapEntries b)

/-- Interface `Mapper` through its one method `ToMap`, which may return the nil map; where
a `Mapper` is passed, `none` is the nil interface. -/
structure Mapper (ν : Type) where
  ToMap : Option (JMap ν)

/-- Go struct `jwt.Token` as far as the strategy reads it. -/
structure Token (ν : Type) where
  MethodIsRSA : Bool
  Header : Option (JMap ν)
  Claims : Option (JMap ν)
  Valid : Bool

/-- The functions of `jwt-go` called by the strategy, taken as parameters: the header of
`jwt.New(jwt.SigningMethodRS256)`, `(*Token).SigningString` on a header and claims,
`SigningMethodRS256.Sign` on a signing string and a key, `jwt.Parse` on a token and a key
callback, and the rendering `%v` of a header entry. -/
structure JWTLibrary (ν κ : Type) where
  NewHeader : JMap ν
  SigningString : Option (JMap ν) → Option (JMap ν) → Except String String
  Sign : String → κ → Except String String
  Parse : String → (Token ν → Except String κ) → Except String (Token ν)
  Format : Option ν → String

/-- Go struct `RS256JWTStrategy`. -/
structure RS256JWTStrategy (κ : Type) where
  PrivateKey : κ

/-- One invocation of a function of `jwt-go` that computes on the token material. -/
inductive JWTCall where
  | SigningString
  | Sign (signingString : String)
deriving DecidableEq, Repr

/-- The three results of `Generate` and the library invocations it made, oldest first. -/
structure GenerateResult where
  token : String
  signature : String
  err : Option String
  calls : List JWTCall
deriving DecidableEq, Repr

/-- Go `(*RS256JWTStrategy).Generate`. -/
def RS256JWTStrategy.Generate (lib : JWTLibrary ν κ) (j : RS256JWTStrategy κ)
    (claims header : Option (Mapper ν)) : GenerateResult :=
  match header, claims with
  | none, _ =>
    { token := "", signature := "", err := some "Either claims or header is nil.", calls := [] }
  | some _, none =>
    { token := "", signature := "", err := some "Either claims or header is nil.", calls := [] }
  | some header, some claims =>
    let tokenClaims := claims.ToMap
    let tokenHeader := (assign (some lib.NewHeader) header.ToMap).result
    match lib.SigningString tokenHeader tokenClaims with
    | Except.error err =>
      { token := "", signature := "", err := some (": " ++ err), calls := [JWTCall.SigningString] }
    | Except.ok sstr =>
      match lib.Sign sstr j.PrivateKey with
      | Except.error err =>
        { token := "", signature := "", err := some (": " ++ err)
          calls := [JWTCall.SigningString, JWTCall.Sign sstr] }
      | Except.ok sig =>
        { token := sstr ++ "." ++ sig, signature := sig, err := none
          calls := [JWTCall.SigningString, JWTCall.Sign sstr] }

/-- Puts a character in front of the first segment. -/
def consSegment (c : Char) : List (List Char) → List (List Char)
  | [] => [[c]]
  | seg :: segs => (c :: seg) :: segs

/-- Go `strings.Split(s, ".")` on the characters of `s`: the segments between the
delimiters, one more than there are delimiters. -/
def splitDot : List Char → List (List Char)
  | [] => [[]]
  | c :: cs => if c = '.' then [] :: splitDot cs else consSegment c (splitDot cs)

/-- Go `strings.Split(token, ".")`. -/
def Split (token : String) : List String :=
  (splitDot token.data).map String.mk

/-- Go `(*RS256JWTStrategy).GetSignature`: the returned string and the returned error. -/
def RS256JWTStrategy.GetSignature (_j : RS256JWTStrategy κ) (token : String) :
    String × Option String :=
  let split := Split token
  if split.length ≠ 3 then ("", some "Header, body and signature must all be set")
  else (split.getD 2 "", none)

/-- The key callback that `Decode` hands to `jwt.Parse`; the public half of the key is
identified by the key it belongs to. -/
def RS256JWTStrategy.keyFunc (lib : JWTLibrary ν κ) (j : RS256JWTStrategy κ) (t : Token ν) :
    Except String κ :=
  if !t.MethodIsRSA then
    Except.error ("Unexpected signing method: " ++ lib.Format (mapLookup t.Header "alg"))
  else Except.ok j.PrivateKey

/-- Go `(*RS256JWTStrategy).Decode`: the parsed token (`none` is nil) and the error. -/
def RS256JWTStrategy.Decode (lib : JWTLibrary ν κ) (j : RS256JWTStrategy κ) (token : String) :
    Option (Token ν) × Option String :=
  match lib.Parse token (j.keyFunc lib) with
  | Except.error err => (none, some ("Couldn't parse token: " ++ err))
  | Except.ok parsedToken =>
    if !parsedToken.Valid then (none, some "Token is invalid")
    else (some parsedToken, none)

/-- Go `(*RS256JWTStrategy).Validate`: the returned signature and the returned error. -/
def RS256JWTStrategy.Validate (lib : JWTLibrary ν κ) (j : RS256JWTStrategy κ) (token : String) :
    String × Option String :=
  match (j.Decode lib token).2 with
  | some err => ("", some (": " ++ err))
  | none => j.GetSignature token

/-! ## The pipeline dispatcher -/

/-- Modelled from the spec: the dispatcher is declared outside the files at hand. An
endpoint kind (authorize or token) fixes where the declared response or grant types and
the types marked as handled are read in the state of a run, and the error that stands
for a declared type that no handler marked. -/
structure Endpoint (S : Type) where
  declared : S → Arguments
  handled : S → Arguments
  unsupported : ErrorCode

/-- Modelled from the spec: the dispatcher is declared outside the files at hand. It
"offers" the request "to each registered handler in registration order"; a handler that
fails "aborts the pipeline", any other hands its state to the next handler. -/
def Dispatcher.pass {S : Type} :
    List (S → Option WrappedError × S) → S → Option WrappedError × S
  | [], w => (none, w)
  | h :: rest, w =>
    match h w with
    | (some e, w1) => (some e, w1)
    | (none, w1) => Dispatcher.pass rest w1

/-- Modelled from the spec: the dispatcher is declared outside the files at hand. The
check "that every declared response/grant type was marked handled". -/
def Dispatcher.allHandled {S : Type} (ep : Endpoint S) (w : S) : Bool :=
  (ep.declared w).all (fun t => (ep.handled w).Has t)

/-- Modelled from the spec: the dispatcher is declared outside the files at hand. The
pass over the handlers, then, "after the pass", the check of the marks; "unhandled types
are a hard error". A response reaches the caller only when the error is `none`. -/
def Dispatcher.dispatch {S : Type} (ep : Endpoint S)
    (handlers : List (S → Option WrappedError × S)) (w : S) : Option WrappedError × S :=
  match Dispatcher.pass handlers w with
  | (some e, w1) => (some e, w1)
  | (none, w1) =>
    if Dispatcher.allHandled ep w1 then (none, w1)
    else (some (Wrap ep.unsupported ""), w1)

/-- Modelled from the spec: the authorize endpoint reads the declared and the handled
response types of the request; an unhandled type is `unsupported_response_type`. -/
def authorizeEndpoint : Endpoint (Run σ) :=
  { declared := fun w => w.ar.ResponseTypes
    handled := fun w => w.ar.HandledResponseTypes
    unsupported := ErrorCode.unsupported_response_type }

/-- Modelled from the spec: the state of a token-endpoint run is declared outside the files
at hand; it declares grant types, accumulates the grant types marked as handled, and
carries the access token minted so far (empty when none). -/
structure AccessRun where
  GrantTypes : Arguments
  HandledGrantTypes : Arguments
  AccessToken : String
deriving DecidableEq, Repr

/-- Modelled from the spec: the token endpoint reads the declared and the handled grant
types of the request; an unhandled type is `unsupported_grant_type`. -/
def tokenEndpoint : Endpoint AccessRun :=
  { declared := fun w => w.GrantTypes
    handled := fun w => w.HandledGrantTypes
    unsupported := ErrorCode.unsupported_grant_type }

/-! ## Concrete inputs used to exercise the statements -/

/-- A client that only differs from the zero value by its identifier and its allowed
response and grant types. -/
def exampleClient (responseTypes grantTypes : Arguments) : Client :=
  { DefaultClient with ID := "c1", ResponseTypes := responseTypes, GrantTypes := grantTypes }

/-- A run about to start: state `xyz`, granted scopes `read` and `write`, nothing handled,
no fragment written, no collaborator invoked. -/
def exampleRun (responseTypes clientResponseTypes clientGrantTypes : Arguments) : Run Unit :=
  { ar :=
      { ResponseTypes := responseTypes
        HandledResponseTypes := []
        State := "xyz"
        Request :=
          { (NewRequest ⟨0⟩ : Request Unit) with
            Client := exampleClient clientResponseTypes clientGrantTypes
            GrantedScopes := ["read", "write"] } }
    resp := { Fragment := [] }
    calls := [] }

/-- A handler whose collaborators answer with fixed results. -/
def exampleHandler (generated : Except String (String × String)) (stored : Option String)
    (lifespan : Int) : AuthorizeImplicitGrantTypeHandler Unit :=
  { AccessTokenStrategy := { GenerateAccessToken := fun _ => generated }
    AccessTokenStorage := { CreateAccessTokenSession := fun _ _ => stored }
    AccessTokenLifespan := lifespan }

/-- A handler whose strategy returns the token `tok` with the signature `sig` and whose
storage refuses exactly one key, with the error `exists`. -/
def exampleKeyedHandler (refused : String) : AuthorizeImplicitGrantTypeHandler Unit :=
  { AccessTokenStrategy := { GenerateAccessToken := fun _ => Except.ok ("tok", "sig") }
    AccessTokenStorage :=
      { CreateAccessTokenSession := fun key _ => if key = refused then some "exists" else none }
    AccessTokenLifespan := 3600000000000 }

/-- A stand-in for the library whose signing string shows the `alg` entry of the header it
is given. -/
def exampleRevealingLibrary : JWTLibrary String Unit :=
  { NewHeader := ((∅ : JMap String).insert "alg" "RS256").insert "typ" "JWT"
    SigningString := fun header _ =>
      match mapLookup header "alg" with
      | some alg => Except.ok (alg ++ ".c")
      | none => Except.error "no alg"
    Sign := fun _ _ => Except.ok "s"
    Parse := fun _ _ => Except.error "not used"
    Format := fun _ => "" }

/-- The zero value `Request{}` of the struct: nil slices, nil form, nil session. -/
def zeroRequest : Request Unit :=
  { RequestedAt := ⟨0⟩
    Client := DefaultClient
    Scopes := []
    GrantedScopes := []
    Form := none
    Session := none }

/-- A fresh request whose form holds the one entry `k = [v]`. -/
def requestWithForm (k : String) (v : List String) : Request Unit :=
  { (NewRequest ⟨0⟩ : Request Unit) with Form := some ((∅ : Values).insert k v) }

/-- A fresh request with the given granted scopes. -/
def requestGranted (granted : Arguments) : Request Unit :=
  { (NewRequest ⟨0⟩ : Request Unit) with GrantedScopes := granted }

/-- The header that `jwt.New(jwt.SigningMethodRS256)` starts from, with text values. -/
def exampleNewHeader : JMap String :=
  ((∅ : JMap String).insert "alg" "RS256").insert "typ" "JWT"

/-- A stand-in for the library whose functions answer with fixed results. -/
def exampleLibrary : JWTLibrary String Unit :=
  { NewHeader := exampleNewHeader
    SigningString := fun _ _ => Except.ok "h.c"
    Sign := fun _ _ => Except.ok "s"
    Parse := fun _ _ => Except.error "not used"
    Format := fun _ => "" }

/-- A header supplied by a caller who tries to choose the algorithm. -/
def exampleCallerHeader : JMap String :=
  ((∅ : JMap String).insert "alg" "none").insert "kid" "1"

/-- Joins segments with the delimiter `.`, the inverse of `splitDot`. -/
def joinDot : List (List Char) → List Char
  | [] => []
  | [seg] => seg
  | seg :: rest => seg ++ '.' :: joinDot rest

/-! ## Auxiliary facts about the embedding -/

section Aux

variable {σ ν κ : Type}

theorem grantScopeFound_eq_true_iff (scope : String) (l : List String) :
    Request.grantScopeFound scope l = true ↔ scope ∈ l := by
  induction l with
  | nil => simp [Request.grantScopeFound]
  | cons has rest ih =>
    by_cases h : scope = has
    · simp [Request.grantScopeFound, h]
    · simp [Request.grantScopeFound, h, ih]

theorem foldl_append_singleton (l init : List String) :
    l.foldl (fun acc scope => acc ++ [scope]) init = init ++ l := by
  induction l generalizing init with
  | nil => simp
  | cons x xs ih => simp [List.foldl_cons, ih]

theorem GrantScope_of_mem (a : Request σ) (s : String) (h : s ∈ a.GrantedScopes) :
    a.GrantScope s = a := by
  simp [Request.GrantScope, (grantScopeFound_eq_true_iff s a.GrantedScopes).2 h]

theorem GrantScope_of_not_mem (a : Request σ) (s : String) (h : s ∉ a.GrantedScopes) :
    a.GrantScope s = { a with GrantedScopes := a.GrantedScopes ++ [s] } := by
  have hf : Request.grantScopeFound s a.GrantedScopes = false := by
    cases hc : Request.grantScopeFound s a.GrantedScopes with
    | false => rfl
    | true => exact absurd ((grantScopeFound_eq_true_iff s a.GrantedScopes).1 hc) h
  simp [Request.GrantScope, hf]

theorem GrantScope_mem_self (a : Request σ) (s : String) :
    s ∈ (a.GrantScope s).GrantedScopes := by
  by_cases hm : s ∈ a.GrantedScopes
  · rw [GrantScope_of_mem a s hm]; exact hm
  · rw [GrantScope_of_not_mem a s hm]; simp

theorem GrantScope_nodup (a : Request σ) (s : String) (h : a.GrantedScopes.Nodup) :
    (a.GrantScope s).GrantedScopes.Nodup := by
  by_cases hm : s ∈ a.GrantedScopes
  · rw [GrantScope_of_mem a s hm]; exact h
  · rw [GrantScope_of_not_mem a s hm]
    simp only
    rw [List.nodup_append]
    refine ⟨h, List.nodup_singleton s, ?_⟩
    intro x hx hx1
    rw [List.mem_singleton] at hx1
    subst hx1
    exact hm hx

theorem foldl_GrantScope_nodup (ss : List String) (a : Request σ) (h : a.GrantedScopes.Nodup) :
    (ss.foldl Request.GrantScope a).GrantedScopes.Nodup := by
  induction ss generalizing a with
  | nil => simpa using h
  | cons x xs ih => simpa [List.foldl_cons] using ih (a.GrantScope x) (GrantScope_nodup a x h)

theorem Has_eq_true_iff (r : Arguments) (item : String) : r.Has item = true ↔ item ∈ r := by
  simp [Arguments.Has]

theorem Has_eq_false_iff (r : Arguments) (item : String) : r.Has item = false ↔ item ∉ r := by
  rw [← Has_eq_true_iff]; simp

theorem Exact_eq_true_iff (r : Arguments) (name : String) : r.Exact name = true ↔ r = [name] := by
  simp [Arguments.Exact]

theorem Exact_eq_false_iff (r : Arguments) (name : String) :
    r.Exact name = false ↔ r ≠ [name] := by
  simp [Arguments.Exact]

theorem wrapSigned_64_of_inInt64 (x : Int) (h : inInt64 x) : wrapSigned 64 x = x := by
  unfold inInt64 at h
  unfold wrapSigned
  norm_num at h ⊢
  omega

theorem tdiv_Second_inInt64 (d : Int) (h : inInt64 d) : inInt64 (Int.tdiv d 1000000000) := by
  unfold inInt64 at h ⊢
  rcases le_or_lt 0 d with hd | hd
  · rw [Int.tdiv_eq_ediv hd (by norm_num)]
    norm_num at h ⊢
    omega
  · have hq : Int.tdiv d 1000000000 = -((-d) / 1000000000) := by
      rw [← Int.tdiv_eq_ediv (by omega) (by norm_num), Int.neg_tdiv, neg_neg]
    rw [hq]
    norm_num at h ⊢
    omega

theorem expires_in_seconds (d : Int) (h : inInt64 d) :
    goInt (durationDiv d Second) = Int.tdiv d 1000000000 := by
  have hq := tdiv_Second_inInt64 d h
  unfold goInt durationDiv intSize Second
  rw [wrapSigned_64_of_inInt64 _ hq, wrapSigned_64_of_inInt64 _ hq]

theorem Handle_of_not_exact (c : AuthorizeImplicitGrantTypeHandler σ) (w : Run σ)
    (h : w.ar.ResponseTypes ≠ ["token"]) :
    c.HandleAuthorizeEndpointRequest w = (none, w) := by
  have hx : w.ar.GetResponseTypes.Exact "token" = false :=
    (Exact_eq_false_iff _ _).2 h
  simp [AuthorizeImplicitGrantTypeHandler.HandleAuthorizeEndpointRequest, hx]

theorem Handle_of_response_type_denied (c : AuthorizeImplicitGrantTypeHandler σ) (w : Run σ)
    (hx : w.ar.ResponseTypes = ["token"]) (h : "token" ∉ w.ar.Request.Client.ResponseTypes) :
    c.HandleAuthorizeEndpointRequest w = (some (Wrap ErrInvalidGrant ""), w) := by
  have h1 : w.ar.GetResponseTypes.Exact "token" = true := (Exact_eq_true_iff _ _).2 hx
  have h2 : w.ar.GetClient.GetResponseTypes.Has "token" = false := (Has_eq_false_iff _ _).2 h
  simp [AuthorizeImplicitGrantTypeHandler.HandleAuthorizeEndpointRequest, h1, h2]

theorem Handle_of_grant_type_denied (c : AuthorizeImplicitGrantTypeHandler σ) (w : Run σ)
    (hx : w.ar.ResponseTypes = ["token"]) (h : "implicit" ∉ w.ar.Request.Client.GrantTypes) :
    c.HandleAuthorizeEndpointRequest w = (some (Wrap ErrInvalidGrant ""), w) := by
  have h1 : w.ar.GetResponseTypes.Exact "token" = true := (Exact_eq_true_iff _ _).2 hx
  have h3 : w.ar.GetClient.GetGrantTypes.Has "implicit" = false := (Has_eq_false_iff _ _).2 h
  by_cases h2 : w.ar.GetClient.GetResponseTypes.Has "token" = true
  · simp [AuthorizeImplicitGrantTypeHandler.HandleAuthorizeEndpointRequest, h1, h2, h3]
  · simp [AuthorizeImplicitGrantTypeHandler.HandleAuthorizeEndpointRequest, h1, h2]

theorem Handle_of_allowed (c : AuthorizeImplicitGrantTypeHandler σ) (w : Run σ)
    (hx : w.ar.ResponseTypes = ["token"]) (hr : "token" ∈ w.ar.Request.Client.ResponseTypes)
    (hg : "implicit" ∈ w.ar.Request.Client.GrantTypes) :
    c.HandleAuthorizeEndpointRequest w = c.IssueImplicitAccessToken w := by
  have h1 : w.ar.GetResponseTypes.Exact "token" = true := (Exact_eq_true_iff _ _).2 hx
  have h2 : w.ar.GetClient.GetResponseTypes.Has "token" = true := (Has_eq_true_iff _ _).2 hr
  have h3 : w.ar.GetClient.GetGrantTypes.Has "implicit" = true := (Has_eq_true_iff _ _).2 hg
  simp [AuthorizeImplicitGrantTypeHandler.HandleAuthorizeEndpointRequest, h1, h2, h3]

theorem Issue_of_generate_error (c : AuthorizeImplicitGrantTypeHandler σ) (w : Run σ)
    (err : String) (h : c.AccessTokenStrategy.GenerateAccessToken w.ar = Except.error err) :
    c.IssueImplicitAccessToken w
      = (some (Wrap ErrServerError err),
          { w with calls := w.calls ++ [Call.GenerateAccessToken w.ar] }) := by
  simp [AuthorizeImplicitGrantTypeHandler.IssueImplicitAccessToken,
    AccessTokenStrategy.invoke, h]

theorem Issue_of_storage_error (c : AuthorizeImplicitGrantTypeHandler σ) (w : Run σ)
    (token signature err : String)
    (h : c.AccessTokenStrategy.GenerateAccessToken w.ar = Except.ok (token, signature))
    (hs : c.AccessTokenStorage.CreateAccessTokenSession signature w.ar = some err) :
    c.IssueImplicitAccessToken w
      = (some (Wrap ErrServerError err),
          { w with calls := w.calls ++ [Call.GenerateAccessToken w.ar]
                      ++ [Call.CreateAccessTokenSession signature w.ar] }) := by
  simp [AuthorizeImplicitGrantTypeHandler.IssueImplicitAccessToken,
    AccessTokenStrategy.invoke, AccessTokenStorage.invoke, h, hs]

theorem Issue_of_success (c : AuthorizeImplicitGrantTypeHandler σ) (w : Run σ)
    (token signature : String)
    (h : c.AccessTokenStrategy.GenerateAccessToken w.ar = Except.ok (token, signature))
    (hs : c.AccessTokenStorage.CreateAccessTokenSession signature w.ar = none) :
    c.IssueImplicitAccessToken w
      = (none,
          { ar := w.ar.SetResponseTypeHandled "token"
            resp :=
              { Fragment := w.resp.Fragment ++
                  [("access_token", token),
                   ("expires_in", Itoa (goInt (durationDiv c.AccessTokenLifespan Second))),
                   ("token_type", "bearer"),
                   ("state", w.ar.State),
                   ("scope", Join w.ar.Request.GrantedScopes "+")] }
            calls := w.calls ++ [Call.GenerateAccessToken w.ar]
                      ++ [Call.CreateAccessTokenSession signature w.ar] }) := by
  simp [AuthorizeImplicitGrantTypeHandler.IssueImplicitAccessToken,
    AccessTokenStrategy.invoke, AccessTokenStorage.invoke, h, hs,
    AuthorizeResponse.AddFragment, AuthorizeRequest.GetState, AuthorizeRequest.GetGrantedScopes,
    Request.GetGrantedScopes]

theorem storageCalls_append_generate (l : List (Call σ)) (ar : AuthorizeRequest σ) :
    storageCalls (l ++ [Call.GenerateAccessToken ar]) = storageCalls l := by
  simp [storageCalls, List.countP_append, List.countP_cons, Call.isCreate]

theorem storageCalls_append_generate_create (l : List (Call σ)) (ar : AuthorizeRequest σ)
    (signature : String) :
    storageCalls (l ++ [Call.GenerateAccessToken ar] ++ [Call.CreateAccessTokenSession signature ar])
      = storageCalls l + 1 := by
  simp [storageCalls, List.countP_append, List.countP_cons, Call.isCreate]

theorem Handle_error_frame (c : AuthorizeImplicitGrantTypeHandler σ) (w : Run σ)
    (e : WrappedError) (he : (c.HandleAuthorizeEndpointRequest w).1 = some e) :
    (c.HandleAuthorizeEndpointRequest w).2.resp = w.resp
      ∧ (c.HandleAuthorizeEndpointRequest w).2.ar = w.ar := by
  by_cases hx : w.ar.ResponseTypes = ["token"]
  swap
  · rw [Handle_of_not_exact c w hx]; exact ⟨rfl, rfl⟩
  by_cases hr : "token" ∈ w.ar.Request.Client.ResponseTypes
  swap
  · rw [Handle_of_response_type_denied c w hx hr]; exact ⟨rfl, rfl⟩
  by_cases hg : "implicit" ∈ w.ar.Request.Client.GrantTypes
  swap
  · rw [Handle_of_grant_type_denied c w hx hg]; exact ⟨rfl, rfl⟩
  rw [Handle_of_allowed c w hx hr hg] at he ⊢
  cases hgen : c.AccessTokenStrategy.GenerateAccessToken w.ar with
  | error err => rw [Issue_of_generate_error c w err hgen]; exact ⟨rfl, rfl⟩
  | ok pair =>
    obtain ⟨token, signature⟩ := pair
    cases hst : c.AccessTokenStorage.CreateAccessTokenSession signature w.ar with
    | some err => rw [Issue_of_storage_error c w token signature err hgen hst]; exact ⟨rfl, rfl⟩
    | none =>
      rw [Issue_of_success c w token signature hgen hst] at he
      simp at he

theorem lookup_foldl_set (entries : List (Sigma fun _ : String => List String))
    (hnd : entries.NodupKeys) (m : Values) (k : String) :
    (entries.foldl (fun acc e => Values.set acc e.1 e.2) m).lookup k
      = (match entries.dlookup k with
         | some v => some v
         | none => m.lookup k) := by
  induction entries generalizing m with
  | nil => simp
  | cons e es ih =>
    obtain ⟨hk, hes⟩ := List.nodupKeys_cons.1 hnd
    rw [List.foldl_cons, ih hes]
    obtain ⟨ek, ev⟩ := e
    by_cases h : k = ek
    · subst h
      have hnone : List.dlookup k es = none := List.dlookup_eq_none.2 hk
      rw [hnone, List.dlookup_cons_eq]
      simp [Values.set, AList.lookup_insert]
    · rw [List.dlookup_cons_ne es ⟨ek, ev⟩ h]
      cases hl : List.dlookup k es with
      | some v => rfl
      | none => simp [Values.set, AList.lookup_insert_ne h]

theorem formLookup_formEntries (f : Option Values) (k : String) :
    (Request.formEntries f).dlookup k = Request.formLookup f k := by
  cases f with
  | none => rfl
  | some m => rfl

theorem formEntries_nodupKeys (f : Option Values) : (Request.formEntries f).NodupKeys := by
  cases f with
  | none => exact List.nodupKeys_nil
  | some m => exact m.nodupKeys

theorem mergeForm_of_some (m : Values) (entries : List (Sigma fun _ : String => List String)) :
    Request.mergeForm (some m) entries
      = (some (entries.foldl (fun acc e => Values.set acc e.1 e.2) m), false) := by
  cases entries with
  | nil => rfl
  | cons e es => rfl

theorem mergeForm_of_none (entries : List (Sigma fun _ : String => List String)) :
    (Request.mergeForm none entries).1 = none := by
  cases entries with
  | nil => rfl
  | cons e es => rfl

theorem Merge_form_lookup_of_some (a r : Request σ) (m : Values) (hm : a.Form = some m)
    (k : String) :
    Request.formLookup (a.Merge r).target.Form k
      = (match Request.formLookup r.Form k with
         | some v => some v
         | none => m.lookup k) := by
  have h : (a.Merge r).target.Form
      = some ((Request.formEntries r.Form).foldl (fun acc e => Values.set acc e.1 e.2) m) := by
    simp only [Request.Merge, Request.GetRequestForm, hm, mergeForm_of_some]
  rw [h]
  show AList.lookup k _ = _
  rw [lookup_foldl_set _ (formEntries_nodupKeys r.Form), formLookup_formEntries]

theorem Merge_form_of_none (a r : Request σ) (hm : a.Form = none) :
    (a.Merge r).target.Form = none := by
  simp only [Request.Merge, Request.GetRequestForm, hm, mergeForm_of_none]

theorem assignLoop_some (es : List (Sigma fun _ : String => ν)) (m : JMap ν) :
    (assignLoop (some m) es).panicked = false
      ∧ ∃ m2 : JMap ν, (assignLoop (some m) es).result = some m2
          ∧ ∀ k, m2.lookup k
              = (match m.lookup k with
                 | some v => some v
                 | none => es.dlookup k) := by
  induction es generalizing m with
  | nil =>
    refine ⟨rfl, m, rfl, ?_⟩
    intro k
    cases m.lookup k <;> rfl
  | cons e es ih =>
    obtain ⟨ek, ev⟩ := e
    by_cases he : (m.lookup ek).isSome = true
    · have hstep : assignLoop (some m) (⟨ek, ev⟩ :: es) = assignLoop (some m) es := by
        simp [assignLoop, he]
      rw [hstep]
      obtain ⟨hp, m2, hr, hl⟩ := ih m
      refine ⟨hp, m2, hr, ?_⟩
      intro k
      rw [hl k]
      cases hk : m.lookup k with
      | some v => rfl
      | none =>
        have hne : k ≠ ek := by
          intro h
          subst h
          rw [hk] at he
          simp at he
        simp only
        rw [List.dlookup_cons_ne es ⟨ek, ev⟩ hne]
    · have hnone : m.lookup ek = none := by
        cases hk : m.lookup ek with
        | none => rfl
        | some v => rw [hk] at he; simp at he
      have hstep : assignLoop (some m) (⟨ek, ev⟩ :: es)
          = assignLoop (some (m.insert ek ev)) es := by
        simp [assignLoop, hnone]
      rw [hstep]
      obtain ⟨hp, m2, hr, hl⟩ := ih (m.insert ek ev)
      refine ⟨hp, m2, hr, ?_⟩
      intro k
      rw [hl k]
      by_cases hke : k = ek
      · subst hke
        rw [AList.lookup_insert, hnone]
        simp only
        rw [List.dlookup_cons_eq]
      · rw [AList.lookup_insert_ne hke]
        cases hk : m.lookup k with
        | some v => rfl
        | none =>
          simp only
          rw [List.dlookup_cons_ne es ⟨ek, ev⟩ hke]

theorem mapEntries_dlookup (b : Option (JMap ν)) (k : String) :
    (mapEntries b).dlookup k = mapLookup b k := by
  cases b with
  | none => rfl
  | some m => rfl

theorem splitDot_ne_nil (l : List Char) : splitDot l ≠ [] := by
  induction l with
  | nil => simp [splitDot]
  | cons c cs ih =>
    by_cases h : c = '.'
    · simp [splitDot, h]
    · cases hs : splitDot cs with
      | nil => exact absurd hs ih
      | cons seg segs => simp [splitDot, h, hs, consSegment]

theorem splitDot_length (l : List Char) : (splitDot l).length = l.count '.' + 1 := by
  induction l with
  | nil => simp [splitDot]
  | cons c cs ih =>
    by_cases h : c = '.'
    · subst h
      simp [splitDot, ih]
    · have hc : List.count '.' (c :: cs) = List.count '.' cs := by
        rw [List.count_cons]
        simp [h]
      cases hs : splitDot cs with
      | nil => exact absurd hs (splitDot_ne_nil cs)
      | cons seg segs =>
        rw [hc, ← ih, hs]
        simp [splitDot, h, hs, consSegment]

theorem joinDot_splitDot (l : List Char) : joinDot (splitDot l) = l := by
  induction l with
  | nil => simp [splitDot, joinDot]
  | cons c cs ih =>
    cases hs : splitDot cs with
    | nil => exact absurd hs (splitDot_ne_nil cs)
    | cons seg segs =>
      rw [hs] at ih
      by_cases h : c = '.'
      · subst h
        simp [splitDot, hs, joinDot, ih]
      · cases segs with
        | nil =>
          simp [joinDot] at ih
          simp [splitDot, h, hs, consSegment, joinDot, ih]
        | cons seg2 segs2 =>
          simp [joinDot] at ih
          simp [splitDot, h, hs, consSegment, joinDot, ih]

theorem splitDot_no_dot (l : List Char) : ∀ seg ∈ splitDot l, '.' ∉ seg := by
  induction l with
  | nil => simp [splitDot]
  | cons c cs ih =>
    cases hs : splitDot cs with
    | nil => exact absurd hs (splitDot_ne_nil cs)
    | cons seg segs =>
      rw [hs] at ih
      by_cases h : c = '.'
      · subst h
        intro x hx
        simp [splitDot, hs] at hx
        rcases hx with rfl | rfl | hx
        · simp
        · exact ih _ (List.mem_cons_self _ _)
        · exact ih _ (List.mem_cons_of_mem _ hx)
      · intro x hx
        simp [splitDot, h, hs, consSegment] at hx
        rcases hx with rfl | hx
        · intro hmem
          rcases List.mem_cons.1 hmem with h1 | h1
          · exact h h1.symm
          · exact ih _ (List.mem_cons_self _ _) h1
        · exact ih _ (List.mem_cons_of_mem _ hx)

theorem GetSignature_of_three (j : RS256JWTStrategy κ) (t : String) (a b c : List Char)
    (h : splitDot t.data = [a, b, c]) : j.GetSignature t = (String.mk c, none) := by
  simp [RS256JWTStrategy.GetSignature, Split, h]

theorem GetSignature_of_not_three (j : RS256JWTStrategy κ) (t : String)
    (h : (splitDot t.data).length ≠ 3) :
    j.GetSignature t = ("", some "Header, body and signature must all be set") := by
  simp [RS256JWTStrategy.GetSignature, Split, h]

theorem pass_of_all_decline {S : Type} (handlers : List (S → Option WrappedError × S)) (w : S)
    (h : ∀ f ∈ handlers, f w = (none, w)) : Dispatcher.pass handlers w = (none, w) := by
  induction handlers with
  | nil => rfl
  | cons f rest ih =>
    have hf : f w = (none, w) := h f (List.mem_cons_self _ _)
    have hrest : ∀ g ∈ rest, g w = (none, w) := fun g hg => h g (List.mem_cons_of_mem _ hg)
    simp only [Dispatcher.pass, hf]
    exact ih hrest

theorem dispatch_of_pass {S : Type} (ep : Endpoint S)
    (handlers : List (S → Option WrappedError × S)) (w w1 : S)
    (hp : Dispatcher.pass handlers w = (none, w1)) (hu : Dispatcher.allHandled ep w1 = false) :
    Dispatcher.dispatch ep handlers w = (some (Wrap ep.unsupported ""), w1) := by
  simp [Dispatcher.dispatch, hp, hu]

theorem splitDot_of_no_dot (a : List Char) (h : '.' ∉ a) : splitDot a = [a] := by
  induction a with
  | nil => rfl
  | cons c cs ih =>
    have hc : c ≠ '.' := fun hc => h (hc ▸ List.mem_cons_self _ _)
    have hcs : '.' ∉ cs := fun hm => h (List.mem_cons_of_mem _ hm)
    simp [splitDot, hc, ih hcs, consSegment]

theorem splitDot_append_dot (a rest : List Char) (h : '.' ∉ a) :
    splitDot (a ++ '.' :: rest) = a :: splitDot rest := by
  induction a with
  | nil => simp [splitDot]
  | cons c cs ih =>
    have hc : c ≠ '.' := fun hc => h (hc ▸ List.mem_cons_self _ _)
    have hcs : '.' ∉ cs := fun hm => h (List.mem_cons_of_mem _ hm)
    simp [splitDot, hc, ih hcs, consSegment]

/-- The token that `Generate` returns on success is `sstr.sig` for the signing string and
the signature that the library returned. -/
theorem Generate_token_shape (lib : JWTLibrary ν κ) (j : RS256JWTStrategy κ)
    (claims header : Option (Mapper ν)) (h : (j.Generate lib claims header).err = none) :
    ∃ sstr : String, lib.Sign sstr j.PrivateKey = Except.ok (j.Generate lib claims header).signature
      ∧ (j.Generate lib claims header).token
          = sstr ++ "." ++ (j.Generate lib claims header).signature := by
  cases header with
  | none => simp [RS256JWTStrategy.Generate] at h
  | some hd =>
    cases claims with
    | none => simp [RS256JWTStrategy.Generate] at h
    | some cl =>
      simp only [RS256JWTStrategy.Generate] at h ⊢
      cases hs : lib.SigningString (assign (some lib.NewHeader) hd.ToMap).result cl.ToMap with
      | error e => rw [hs] at h; simp at h
      | ok sstr =>
        rw [hs] at h
        simp only at h ⊢
        cases hg : lib.Sign sstr j.PrivateKey with
        | error e => rw [hg] at h; simp at h
        | ok sig => exact ⟨sstr, hg, rfl⟩

/-- On a token `sstr.sig` whose signing string holds one delimiter and whose signature
holds none, `GetSignature` returns the signature. -/
theorem GetSignature_of_shape (j : RS256JWTStrategy κ) (sstr sig : String)
    (h1 : sstr.data.count '.' = 1) (h0 : '.' ∉ sig.data) :
    j.GetSignature (sstr ++ "." ++ sig) = (sig, none) := by
  have hlen : (splitDot sstr.data).length = 2 := by rw [splitDot_length, h1]
  obtain ⟨a, b, hab⟩ := List.length_eq_two.1 hlen
  have hjoin := joinDot_splitDot sstr.data
  have hnd := splitDot_no_dot sstr.data
  rw [hab] at hjoin hnd
  have ha : '.' ∉ a := hnd a (by simp)
  have hb : '.' ∉ b := hnd b (by simp)
  have hdata : (sstr ++ "." ++ sig).data = a ++ '.' :: (b ++ '.' :: sig.data) := by
    have : sstr.data = a ++ '.' :: b := by rw [← hjoin]; simp [joinDot]
    simp [String.data_append, this]
  have hsplit : splitDot (sstr ++ "." ++ sig).data = [a, b, sig.data] := by
    rw [hdata, splitDot_append_dot a _ ha, splitDot_append_dot b _ hb,
      splitDot_of_no_dot _ h0]
  rw [GetSignature_of_three j _ a b sig.data hsplit]

/-- On a string with fewer than two delimiters `Validate` returns an error and the empty
string, whatever the library answers. -/
theorem Validate_of_few_dots (lib : JWTLibrary ν κ) (j : RS256JWTStrategy κ) (t : String)
    (h : t.data.count '.' < 2) :
    (j.Validate lib t).1 = "" ∧ (j.Validate lib t).2 ≠ none := by
  have h3 : (splitDot t.data).length ≠ 3 := by rw [splitDot_length]; omega
  have hg := GetSignature_of_not_three j t h3
  unfold RS256JWTStrategy.Validate
  cases hd : (j.Decode lib t).2 with
  | some err => simp
  | none => simp [hg]

end Aux

/-! ## Properties of the request model -/

section RequestModel

variable {σ : Type}

/-- C7: `GrantScope(s)` leaves the granted scopes as they are when `s` already occurs in
them and otherwise puts `s` behind the previous granted scopes; `s` is a member
afterwards, and requested scopes, client, timestamp, form and session are unchanged. -/
theorem GrantScope_spec (a : Request σ) (s : String) :
    (a.GrantScope s).GrantedScopes
        = (if s ∈ a.GrantedScopes then a.GrantedScopes else a.GrantedScopes ++ [s])
      ∧ s ∈ (a.GrantScope s).GrantedScopes
      ∧ (a.GrantScope s).Scopes = a.Scopes
      ∧ (a.GrantScope s).Client = a.Client
      ∧ (a.GrantScope s).RequestedAt = a.RequestedAt
      ∧ (a.GrantScope s).Form = a.Form
      ∧ (a.GrantScope s).Session = a.Session := by
  by_cases hm : s ∈ a.GrantedScopes
  · rw [GrantScope_of_mem a s hm]
    simp [hm]
  · rw [GrantScope_of_not_mem a s hm]
    simp [hm]

/-- C8: `GrantScope` is idempotent; from granted scopes without a duplicate, any sequence
of `GrantScope` calls leaves granted scopes without a duplicate; and on a fresh request
granting `s` twice leaves `s` exactly once. -/
theorem GrantScope_idempotent (a : Request σ) (s : String) (ss : List String) (now : Time) :
    ((a.GrantScope s).GrantScope s).GrantedScopes = (a.GrantScope s).GrantedScopes
      ∧ (a.GrantedScopes.Nodup → (ss.foldl Request.GrantScope a).GrantedScopes.Nodup)
      ∧ (((NewRequest now : Request σ).GrantScope s).GrantScope s).GrantedScopes = [s]
      ∧ (((NewRequest now : Request σ).GrantScope s).GrantScope s).GrantedScopes.count s = 1 := by
  have hmem : s ∈ (a.GrantScope s).GrantedScopes := GrantScope_mem_self a s
  have hnew : (((NewRequest now : Request σ).GrantScope s).GrantScope s).GrantedScopes = [s] := by
    rw [GrantScope_of_mem _ s (GrantScope_mem_self (NewRequest now) s)]
    rw [GrantScope_of_not_mem _ s (by simp [NewRequest])]
    simp [NewRequest]
  refine ⟨?_, foldl_GrantScope_nodup ss a, hnew, ?_⟩
  · rw [GrantScope_of_mem _ s hmem]
  · rw [hnew]; simp

/-- Witness of C8 on granted scopes `["read"]` and the calls `write, read, write`. -/
theorem GrantScope_idempotent_witness :
    (["read"] : List String).Nodup
      ∧ ((["write", "read", "write"] : List String).foldl Request.GrantScope
          ({ (NewRequest ⟨0⟩ : Request Unit) with GrantedScopes := ["read"] })).GrantedScopes.Nodup :=
  ⟨by decide,
   (GrantScope_idempotent ({ (NewRequest ⟨0⟩ : Request Unit) with GrantedScopes := ["read"] })
      "write" ["write", "read", "write"] ⟨0⟩).2.1 (by decide)⟩

/-- C9: after `a.Merge(r)` the requested scopes are the previous ones followed by all of
the requested scopes of `r`, the granted scopes are the previous ones followed by all of
the granted scopes of `r`, nothing is removed as a duplicate, and the lengths add. -/
theorem Merge_scopes_additive (a r : Request σ) :
    (a.Merge r).target.Scopes = a.Scopes ++ r.Scopes
      ∧ (a.Merge r).target.GrantedScopes = a.GrantedScopes ++ r.GrantedScopes
      ∧ (a.Merge r).target.Scopes.length = a.Scopes.length + r.Scopes.length
      ∧ (a.Merge r).target.GrantedScopes.length
          = a.GrantedScopes.length + r.GrantedScopes.length := by
  have h1 : (a.Merge r).target.Scopes = a.Scopes ++ r.Scopes := by
    simp [Request.Merge, Request.GetScopes, foldl_append_singleton]
  have h2 : (a.Merge r).target.GrantedScopes = a.GrantedScopes ++ r.GrantedScopes := by
    simp [Request.Merge, Request.GetGrantedScopes, foldl_append_singleton]
  refine ⟨h1, h2, ?_, ?_⟩
  · rw [h1, List.length_append]
  · rw [h2, List.length_append]

/-- C10: after `a.Merge(r)` the timestamp, the client and the session of the target are
those of `r`, a nil session included, whatever the target held before. -/
theorem Merge_overwrites (a r : Request σ) :
    (a.Merge r).target.RequestedAt = r.RequestedAt
      ∧ (a.Merge r).target.Client = r.Client
      ∧ (a.Merge r).target.Session = r.Session :=
  ⟨rfl, rfl, rfl⟩

end RequestModel

/-! ## Properties of the implicit grant handler -/

section ImplicitHandler

variable {σ : Type}

/-- C1: a run of `HandleAuthorizeEndpointRequest` that returns no error on a request whose
response types are exactly `token` has appended exactly five pairs to the fragment channel,
in the order `access_token` (the token of the strategy), `expires_in` (the lifespan in
whole seconds, in decimal), `token_type = bearer`, `state` (the state of the request),
`scope` (the granted scopes joined with `+`), and has marked `token` as handled. -/
theorem implicit_success_fragment (c : AuthorizeImplicitGrantTypeHandler σ) (w : Run σ)
    (hx : w.ar.ResponseTypes = ["token"])
    (hd : inInt64 c.AccessTokenLifespan)
    (hok : (c.HandleAuthorizeEndpointRequest w).1 = none) :
    ∃ token signature,
      c.AccessTokenStrategy.GenerateAccessToken w.ar = Except.ok (token, signature)
        ∧ (c.HandleAuthorizeEndpointRequest w).2.resp.Fragment
            = w.resp.Fragment ++
                [("access_token", token),
                 ("expires_in", Itoa (Int.tdiv c.AccessTokenLifespan 1000000000)),
                 ("token_type", "bearer"),
                 ("state", w.ar.State),
                 ("scope", Join w.ar.Request.GrantedScopes "+")]
        ∧ (c.HandleAuthorizeEndpointRequest w).2.ar.HandledResponseTypes
            = w.ar.HandledResponseTypes ++ ["token"]
        ∧ "token" ∈ (c.HandleAuthorizeEndpointRequest w).2.ar.HandledResponseTypes := by
  by_cases hr : "token" ∈ w.ar.Request.Client.ResponseTypes
  swap
  · rw [Handle_of_response_type_denied c w hx hr] at hok
    simp at hok
  by_cases hg : "implicit" ∈ w.ar.Request.Client.GrantTypes
  swap
  · rw [Handle_of_grant_type_denied c w hx hg] at hok
    simp at hok
  rw [Handle_of_allowed c w hx hr hg] at hok ⊢
  cases hgen : c.AccessTokenStrategy.GenerateAccessToken w.ar with
  | error err =>
    rw [Issue_of_generate_error c w err hgen] at hok
    simp at hok
  | ok pair =>
    obtain ⟨token, signature⟩ := pair
    cases hst : c.AccessTokenStorage.CreateAccessTokenSession signature w.ar with
    | some err =>
      rw [Issue_of_storage_error c w token signature err hgen hst] at hok
      simp at hok
    | none =>
      refine ⟨token, signature, rfl, ?_⟩
      rw [Issue_of_success c w token signature hgen hst, expires_in_seconds _ hd]
      simp [AuthorizeRequest.SetResponseTypeHandled]

/-- Witness of C1: lifespan 3600 s, state `xyz`, granted scopes `read`, `write`. -/
theorem implicit_success_fragment_witness :
    ((exampleHandler (Except.ok ("tok", "sig")) none 3600000000000).HandleAuthorizeEndpointRequest
        (exampleRun ["token"] ["token"] ["implicit"])).2.resp.Fragment
      = [("access_token", "tok"), ("expires_in", "3600"), ("token_type", "bearer"),
         ("state", "xyz"), ("scope", "read+write")]
    ∧ ∃ token signature,
      (exampleHandler (Except.ok ("tok", "sig")) none 3600000000000).AccessTokenStrategy.GenerateAccessToken
          (exampleRun ["token"] ["token"] ["implicit"]).ar = Except.ok (token, signature)
        ∧ ((exampleHandler (Except.ok ("tok", "sig")) none 3600000000000).HandleAuthorizeEndpointRequest
              (exampleRun ["token"] ["token"] ["implicit"])).2.resp.Fragment
            = (exampleRun ["token"] ["token"] ["implicit"]).resp.Fragment ++
                [("access_token", token),
                 ("expires_in", Itoa (Int.tdiv 3600000000000 1000000000)),
                 ("token_type", "bearer"),
                 ("state", (exampleRun ["token"] ["token"] ["implicit"]).ar.State),
                 ("scope", Join (exampleRun ["token"] ["token"] ["implicit"]).ar.Request.GrantedScopes "+")]
        ∧ ((exampleHandler (Except.ok ("tok", "sig")) none 3600000000000).HandleAuthorizeEndpointRequest
              (exampleRun ["token"] ["token"] ["implicit"])).2.ar.HandledResponseTypes
            = (exampleRun ["token"] ["token"] ["implicit"]).ar.HandledResponseTypes ++ ["token"]
        ∧ "token" ∈ ((exampleHandler (Except.ok ("tok", "sig")) none 3600000000000).HandleAuthorizeEndpointRequest
              (exampleRun ["token"] ["token"] ["implicit"])).2.ar.HandledResponseTypes :=
  ⟨by decide,
   implicit_success_fragment (exampleHandler (Except.ok ("tok", "sig")) none 3600000000000)
     (exampleRun ["token"] ["token"] ["implicit"]) rfl (by decide) rfl⟩

/-- C2: when the response types are exactly `token` and `token` is not among the allowed
response types of the client, the handler returns an error classified `invalid_grant` and
issues no token: no collaborator is invoked, no fragment is added, nothing is marked
handled. -/
theorem implicit_response_type_denied (c : AuthorizeImplicitGrantTypeHandler σ) (w : Run σ)
    (hx : w.ar.ResponseTypes = ["token"])
    (hr : "token" ∉ w.ar.Request.Client.ResponseTypes) :
    (∃ e, (c.HandleAuthorizeEndpointRequest w).1 = some e ∧ e.cause = ErrorCode.invalid_grant)
      ∧ (c.HandleAuthorizeEndpointRequest w).2.calls = w.calls
      ∧ strategyCalls (c.HandleAuthorizeEndpointRequest w).2.calls = strategyCalls w.calls
      ∧ storageCalls (c.HandleAuthorizeEndpointRequest w).2.calls = storageCalls w.calls
      ∧ (c.HandleAuthorizeEndpointRequest w).2.resp.Fragment = w.resp.Fragment
      ∧ (c.HandleAuthorizeEndpointRequest w).2.ar.HandledResponseTypes
          = w.ar.HandledResponseTypes := by
  rw [Handle_of_response_type_denied c w hx hr]
  exact ⟨⟨_, rfl, rfl⟩, rfl, rfl, rfl, rfl, rfl⟩

/-- Witness of C2: the client allows the response type `code` only. -/
theorem implicit_response_type_denied_witness :
    (∃ e, ((exampleHandler (Except.ok ("tok", "sig")) none 3600000000000).HandleAuthorizeEndpointRequest
              (exampleRun ["token"] ["code"] ["implicit"])).1 = some e
            ∧ e.cause = ErrorCode.invalid_grant)
      ∧ ((exampleHandler (Except.ok ("tok", "sig")) none 3600000000000).HandleAuthorizeEndpointRequest
            (exampleRun ["token"] ["code"] ["implicit"])).2.resp.Fragment = [] :=
  ⟨(implicit_response_type_denied (exampleHandler (Except.ok ("tok", "sig")) none 3600000000000)
      (exampleRun ["token"] ["code"] ["implicit"]) rfl (by decide)).1,
   (implicit_response_type_denied (exampleHandler (Except.ok ("tok", "sig")) none 3600000000000)
      (exampleRun ["token"] ["code"] ["implicit"]) rfl (by decide)).2.2.2.2.1⟩

/-- C3: when the response types are exactly `token` and `implicit` is not among the allowed
grant types of the client, the handler returns an error classified `invalid_grant` and
`CreateAccessTokenSession` is invoked zero times. -/
theorem implicit_grant_type_denied (c : AuthorizeImplicitGrantTypeHandler σ) (w : Run σ)
    (hx : w.ar.ResponseTypes = ["token"])
    (hg : "implicit" ∉ w.ar.Request.Client.GrantTypes) :
    (∃ e, (c.HandleAuthorizeEndpointRequest w).1 = some e ∧ e.cause = ErrorCode.invalid_grant)
      ∧ (c.HandleAuthorizeEndpointRequest w).2.calls = w.calls
      ∧ storageCalls (c.HandleAuthorizeEndpointRequest w).2.calls = storageCalls w.calls := by
  rw [Handle_of_grant_type_denied c w hx hg]
  exact ⟨⟨_, rfl, rfl⟩, rfl, rfl⟩

/-- Witness of C3: allowed grant types `[]` with allowed response types `token`; the log of
invocations, empty before the run, holds no storage call after it. -/
theorem implicit_grant_type_denied_witness :
    (∃ e, ((exampleHandler (Except.ok ("tok", "sig")) none 3600000000000).HandleAuthorizeEndpointRequest
              (exampleRun ["token"] ["token"] [])).1 = some e
            ∧ e.cause = ErrorCode.invalid_grant)
      ∧ storageCalls ((exampleHandler (Except.ok ("tok", "sig")) none 3600000000000).HandleAuthorizeEndpointRequest
            (exampleRun ["token"] ["token"] [])).2.calls = 0 :=
  ⟨(implicit_grant_type_denied (exampleHandler (Except.ok ("tok", "sig")) none 3600000000000)
      (exampleRun ["token"] ["token"] []) rfl (by decide)).1,
   (implicit_grant_type_denied (exampleHandler (Except.ok ("tok", "sig")) none 3600000000000)
      (exampleRun ["token"] ["token"] []) rfl (by decide)).2.2⟩

/-- C4: when the declared response types are not exactly `token`, the handler returns no
error and changes nothing: no collaborator is invoked, the fragments and the handled
response types are as before, whatever the client allows. -/
theorem implicit_pass_through (c : AuthorizeImplicitGrantTypeHandler σ) (w : Run σ)
    (hx : w.ar.ResponseTypes ≠ ["token"]) :
    (c.HandleAuthorizeEndpointRequest w).1 = none
      ∧ (c.HandleAuthorizeEndpointRequest w).2 = w
      ∧ (c.HandleAuthorizeEndpointRequest w).2.calls = w.calls
      ∧ strategyCalls (c.HandleAuthorizeEndpointRequest w).2.calls = strategyCalls w.calls
      ∧ storageCalls (c.HandleAuthorizeEndpointRequest w).2.calls = storageCalls w.calls
      ∧ (c.HandleAuthorizeEndpointRequest w).2.resp.Fragment = w.resp.Fragment
      ∧ (c.HandleAuthorizeEndpointRequest w).2.ar.HandledResponseTypes
          = w.ar.HandledResponseTypes := by
  rw [Handle_of_not_exact c w hx]
  exact ⟨rfl, rfl, rfl, rfl, rfl, rfl, rfl⟩

/-- Witness of C4: `token` declared together with `id_token`, for a client that allows
neither the response type nor the grant type. -/
theorem implicit_pass_through_witness :
    ((exampleHandler (Except.ok ("tok", "sig")) none 3600000000000).HandleAuthorizeEndpointRequest
        (exampleRun ["token", "id_token"] [] [])).1 = none
      ∧ ((exampleHandler (Except.ok ("tok", "sig")) none 3600000000000).HandleAuthorizeEndpointRequest
          (exampleRun ["token", "id_token"] [] [])).2.resp.Fragment = [] :=
  ⟨(implicit_pass_through (exampleHandler (Except.ok ("tok", "sig")) none 3600000000000)
      (exampleRun ["token", "id_token"] [] []) (by decide)).1,
   (implicit_pass_through (exampleHandler (Except.ok ("tok", "sig")) none 3600000000000)
      (exampleRun ["token", "id_token"] [] []) (by decide)).2.2.2.2.2.1⟩

/-- C5: a run of the handler that returns an error shows no partial success: the fragment
channel and the handled response types are as before. When the request passes the checks
and `GenerateAccessToken` fails, or it succeeds and `CreateAccessTokenSession` fails, the
handler returns an error classified `server_error` carrying the text of the failure, and
adds no fragment; `IssueImplicitAccessToken` does so on every request. -/
theorem implicit_error_no_partial_success (c : AuthorizeImplicitGrantTypeHandler σ)
    (w : Run σ) :
    (∀ e, (c.HandleAuthorizeEndpointRequest w).1 = some e →
        (c.HandleAuthorizeEndpointRequest w).2.resp.Fragment = w.resp.Fragment
          ∧ (c.HandleAuthorizeEndpointRequest w).2.ar.HandledResponseTypes
              = w.ar.HandledResponseTypes
          ∧ (c.HandleAuthorizeEndpointRequest w).2.ar = w.ar)
      ∧ (w.ar.ResponseTypes = ["token"] → "token" ∈ w.ar.Request.Client.ResponseTypes →
          "implicit" ∈ w.ar.Request.Client.GrantTypes →
          (∀ err, c.AccessTokenStrategy.GenerateAccessToken w.ar = Except.error err →
              (c.HandleAuthorizeEndpointRequest w).1
                  = some { cause := ErrorCode.server_error, message := err }
                ∧ (c.HandleAuthorizeEndpointRequest w).2.resp.Fragment = w.resp.Fragment)
            ∧ (∀ token signature err,
                c.AccessTokenStrategy.GenerateAccessToken w.ar = Except.ok (token, signature) →
                c.AccessTokenStorage.CreateAccessTokenSession signature w.ar = some err →
                (c.HandleAuthorizeEndpointRequest w).1
                    = some { cause := ErrorCode.server_error, message := err }
                  ∧ (c.HandleAuthorizeEndpointRequest w).2.resp.Fragment = w.resp.Fragment))
      ∧ (∀ err, c.AccessTokenStrategy.GenerateAccessToken w.ar = Except.error err →
          (c.IssueImplicitAccessToken w).1
              = some { cause := ErrorCode.server_error, message := err }
            ∧ (c.IssueImplicitAccessToken w).2.resp.Fragment = w.resp.Fragment
            ∧ (c.IssueImplicitAccessToken w).2.ar = w.ar)
      ∧ (∀ token signature err,
          c.AccessTokenStrategy.GenerateAccessToken w.ar = Except.ok (token, signature) →
          c.AccessTokenStorage.CreateAccessTokenSession signature w.ar = some err →
          (c.IssueImplicitAccessToken w).1
              = some { cause := ErrorCode.server_error, message := err }
            ∧ (c.IssueImplicitAccessToken w).2.resp.Fragment = w.resp.Fragment
            ∧ (c.IssueImplicitAccessToken w).2.ar = w.ar) := by
  refine ⟨?_, ?_, ?_, ?_⟩
  · intro e he
    obtain ⟨h1, h2⟩ := Handle_error_frame c w e he
    exact ⟨by rw [h1], by rw [h2], h2⟩
  · intro hx hr hg
    rw [Handle_of_allowed c w hx hr hg]
    constructor
    · intro err hgen
      rw [Issue_of_generate_error c w err hgen]
      exact ⟨rfl, rfl⟩
    · intro token signature err hgen hst
      rw [Issue_of_storage_error c w token signature err hgen hst]
      exact ⟨rfl, rfl⟩
  · intro err hgen
    rw [Issue_of_generate_error c w err hgen]
    exact ⟨rfl, rfl, rfl⟩
  · intro token signature err hgen hst
    rw [Issue_of_storage_error c w token signature err hgen hst]
    exact ⟨rfl, rfl, rfl⟩

/-- Witness of C5: the strategy fails with `no entropy`; the strategy succeeds and the
storage fails with `disk full`. -/
theorem implicit_error_no_partial_success_witness :
    (((exampleHandler (Except.error "no entropy") none 3600000000000).HandleAuthorizeEndpointRequest
          (exampleRun ["token"] ["token"] ["implicit"])).1
        = some { cause := ErrorCode.server_error, message := "no entropy" }
      ∧ ((exampleHandler (Except.error "no entropy") none 3600000000000).HandleAuthorizeEndpointRequest
          (exampleRun ["token"] ["token"] ["implicit"])).2.resp.Fragment = [])
    ∧ (((exampleHandler (Except.ok ("tok", "sig")) (some "disk full")
            3600000000000).HandleAuthorizeEndpointRequest
          (exampleRun ["token"] ["token"] ["implicit"])).1
        = some { cause := ErrorCode.server_error, message := "disk full" }
      ∧ ((exampleHandler (Except.ok ("tok", "sig")) (some "disk full")
            3600000000000).HandleAuthorizeEndpointRequest
          (exampleRun ["token"] ["token"] ["implicit"])).2.resp.Fragment = []) :=
  ⟨((implicit_error_no_partial_success (exampleHandler (Except.error "no entropy") none 3600000000000)
      (exampleRun ["token"] ["token"] ["implicit"])).2.1 rfl (by decide) (by decide)).1
      "no entropy" rfl,
   ((implicit_error_no_partial_success
      (exampleHandler (Except.ok ("tok", "sig")) (some "disk full") 3600000000000)
      (exampleRun ["token"] ["token"] ["implicit"])).2.1 rfl (by decide) (by decide)).2
      "tok" "sig" "disk full" rfl rfl⟩

/-- C6: in a successful implicit grant run the storage collaborator has been asked once,
with the second value of the strategy as key and with the request being handled, and has
answered without error; the invocations are `GenerateAccessToken(ar)` then
`CreateAccessTokenSession(signature, ar)`, and the token is the value of the `access_token`
fragment only. The outcome follows the answer of the storage at the signature, whatever it
would answer at the token: an error there fails the run, no error there lets it succeed.
When `GenerateAccessToken` fails, the storage is not invoked. -/
theorem implicit_storage_keyed_by_signature (c : AuthorizeImplicitGrantTypeHandler σ)
    (w : Run σ) :
    (w.ar.ResponseTypes = ["token"] → (c.HandleAuthorizeEndpointRequest w).1 = none →
        ∃ token signature,
          c.AccessTokenStrategy.GenerateAccessToken w.ar = Except.ok (token, signature)
            ∧ c.AccessTokenStorage.CreateAccessTokenSession signature w.ar = none
            ∧ (c.HandleAuthorizeEndpointRequest w).2.calls
                = w.calls ++ [Call.GenerateAccessToken w.ar,
                              Call.CreateAccessTokenSession signature w.ar]
            ∧ storageCalls (c.HandleAuthorizeEndpointRequest w).2.calls = storageCalls w.calls + 1
            ∧ (token ≠ signature → ∀ ar,
                Call.CreateAccessTokenSession token ar
                  ∉ [Call.GenerateAccessToken w.ar, Call.CreateAccessTokenSession signature w.ar])
            ∧ (c.HandleAuthorizeEndpointRequest w).2.resp.Fragment
                = w.resp.Fragment ++
                    [("access_token", token),
                     ("expires_in", Itoa (goInt (durationDiv c.AccessTokenLifespan Second))),
                     ("token_type", "bearer"),
                     ("state", w.ar.State),
                     ("scope", Join w.ar.Request.GrantedScopes "+")])
      ∧ (w.ar.ResponseTypes = ["token"] → "token" ∈ w.ar.Request.Client.ResponseTypes →
          "implicit" ∈ w.ar.Request.Client.GrantTypes →
          ∀ token signature,
            c.AccessTokenStrategy.GenerateAccessToken w.ar = Except.ok (token, signature) →
            (∀ err, c.AccessTokenStorage.CreateAccessTokenSession signature w.ar = some err →
                (c.HandleAuthorizeEndpointRequest w).1
                    = some { cause := ErrorCode.server_error, message := err }
                  ∧ (c.HandleAuthorizeEndpointRequest w).2.calls
                      = w.calls ++ [Call.GenerateAccessToken w.ar,
                                    Call.CreateAccessTokenSession signature w.ar]
                  ∧ (c.HandleAuthorizeEndpointRequest w).2.resp.Fragment = w.resp.Fragment)
              ∧ (c.AccessTokenStorage.CreateAccessTokenSession signature w.ar = none →
                  (c.HandleAuthorizeEndpointRequest w).1 = none
                    ∧ storageCalls (c.HandleAuthorizeEndpointRequest w).2.calls
                        = storageCalls w.calls + 1))
      ∧ (∀ err, c.AccessTokenStrategy.GenerateAccessToken w.ar = Except.error err →
          storageCalls (c.HandleAuthorizeEndpointRequest w).2.calls = storageCalls w.calls) := by
  refine ⟨?_, ?_, ?_⟩
  · intro hx hok
    by_cases hr : "token" ∈ w.ar.Request.Client.ResponseTypes
    swap
    · rw [Handle_of_response_type_denied c w hx hr] at hok
      simp at hok
    by_cases hg : "implicit" ∈ w.ar.Request.Client.GrantTypes
    swap
    · rw [Handle_of_grant_type_denied c w hx hg] at hok
      simp at hok
    rw [Handle_of_allowed c w hx hr hg] at hok ⊢
    cases hgen : c.AccessTokenStrategy.GenerateAccessToken w.ar with
    | error err =>
      rw [Issue_of_generate_error c w err hgen] at hok
      simp at hok
    | ok pair =>
      obtain ⟨token, signature⟩ := pair
      cases hst : c.AccessTokenStorage.CreateAccessTokenSession signature w.ar with
      | some err =>
        rw [Issue_of_storage_error c w token signature err hgen hst] at hok
        simp at hok
      | none =>
        refine ⟨token, signature, rfl, hst, ?_⟩
        rw [Issue_of_success c w token signature hgen hst]
        refine ⟨by simp, storageCalls_append_generate_create _ _ _, ?_, rfl⟩
        intro hne ar hmem
        simp at hmem
        exact hne hmem.1
  · intro hx hr hg token signature hgen
    rw [Handle_of_allowed c w hx hr hg]
    constructor
    · intro err hst
      rw [Issue_of_storage_error c w token signature err hgen hst]
      exact ⟨rfl, by simp, rfl⟩
    · intro hst
      rw [Issue_of_success c w token signature hgen hst]
      exact ⟨rfl, storageCalls_append_generate_create _ _ _⟩
  · intro err hgen
    by_cases hx : w.ar.ResponseTypes = ["token"]
    swap
    · rw [Handle_of_not_exact c w hx]
    by_cases hr : "token" ∈ w.ar.Request.Client.ResponseTypes
    swap
    · rw [Handle_of_response_type_denied c w hx hr]
    by_cases hg : "implicit" ∈ w.ar.Request.Client.GrantTypes
    swap
    · rw [Handle_of_grant_type_denied c w hx hg]
    rw [Handle_of_allowed c w hx hr hg, Issue_of_generate_error c w err hgen]
    exact storageCalls_append_generate _ _

/-- Witness of C6: the strategy returns the token `tok` with the signature `sig`. A storage
that refuses the key `tok` and nothing else lets the run succeed with one storage call; a
storage that refuses the key `sig` and nothing else fails it; a failing strategy leaves the
storage uncalled. -/
theorem implicit_storage_keyed_by_signature_witness :
    (∃ token signature,
      (exampleKeyedHandler "tok").AccessTokenStrategy.GenerateAccessToken
          (exampleRun ["token"] ["token"] ["implicit"]).ar = Except.ok (token, signature)
        ∧ (exampleKeyedHandler "tok").AccessTokenStorage.CreateAccessTokenSession signature
            (exampleRun ["token"] ["token"] ["implicit"]).ar = none
        ∧ storageCalls ((exampleKeyedHandler "tok").HandleAuthorizeEndpointRequest
            (exampleRun ["token"] ["token"] ["implicit"])).2.calls
          = storageCalls (exampleRun ["token"] ["token"] ["implicit"]).calls + 1)
    ∧ (exampleKeyedHandler "tok").AccessTokenStorage.CreateAccessTokenSession "tok"
          (exampleRun ["token"] ["token"] ["implicit"]).ar = some "exists"
    ∧ ((exampleKeyedHandler "sig").HandleAuthorizeEndpointRequest
          (exampleRun ["token"] ["token"] ["implicit"])).1
        = some { cause := ErrorCode.server_error, message := "exists" }
    ∧ ((exampleKeyedHandler "sig").HandleAuthorizeEndpointRequest
          (exampleRun ["token"] ["token"] ["implicit"])).2.resp.Fragment = []
    ∧ storageCalls ((exampleHandler (Except.error "no entropy") none
            3600000000000).HandleAuthorizeEndpointRequest
          (exampleRun ["token"] ["token"] ["implicit"])).2.calls
        = storageCalls (exampleRun ["token"] ["token"] ["implicit"]).calls :=
  ⟨(((implicit_storage_keyed_by_signature (exampleKeyedHandler "tok")
        (exampleRun ["token"] ["token"] ["implicit"])).1 rfl rfl).imp
      (fun _ h => h.imp (fun _ h2 => ⟨h2.1, h2.2.1, h2.2.2.2.1⟩))),
   by decide,
   ((((implicit_storage_keyed_by_signature (exampleKeyedHandler "sig")
        (exampleRun ["token"] ["token"] ["implicit"])).2.1 rfl (by decide) (by decide)
        "tok" "sig" rfl).1 "exists" (by decide)).1),
   ((((implicit_storage_keyed_by_signature (exampleKeyedHandler "sig")
        (exampleRun ["token"] ["token"] ["implicit"])).2.1 rfl (by decide) (by decide)
        "tok" "sig" rfl).1 "exists" (by decide)).2.2),
   (implicit_storage_keyed_by_signature (exampleHandler (Except.error "no entropy") none 3600000000000)
      (exampleRun ["token"] ["token"] ["implicit"])).2.2 "no entropy" rfl⟩

end ImplicitHandler

/-! ## Further properties of the request model -/

section RequestModelForm

variable {σ : Type}

/-- Counterexample to C11 as stated: the target is the zero value `Request{}`, whose form
is the nil map, and the form of the source holds `k = [v]`. `Merge` stops in the run-time
panic of `a.Form[k] = v` and the target does not map `k` to the value list of the source. -/
theorem Merge_form_nil_target_counterexample :
    (zeroRequest.Merge (requestWithForm "k" ["v"])).panicked = true
      ∧ ¬ (∀ k v, Request.formLookup (requestWithForm "k" ["v"]).Form k = some v →
            Request.formLookup (zeroRequest.Merge (requestWithForm "k" ["v"])).target.Form k
              = some v) := by
  refine ⟨rfl, ?_⟩
  intro h
  have h1 := h "k" ["v"] (by decide)
  have h2 : Request.formLookup (zeroRequest.Merge (requestWithForm "k" ["v"])).target.Form "k"
      = none := rfl
  rw [h2] at h1
  exact Option.noConfusion h1

/-- C11, amended: when the form of the target is not the nil map, `Merge` does not panic and
every key of the form of `r` is mapped to the value list of `r` afterwards. For every target:
a key that is not in the form of `r` is mapped as before, no key is present that was in
neither form, and every key of the previous form of the target is still a key. -/
theorem Merge_form_union (a r : Request σ) :
    (a.Form ≠ none →
        (a.Merge r).panicked = false
          ∧ ∀ k v, Request.formLookup r.Form k = some v →
              Request.formLookup (a.Merge r).target.Form k = some v)
      ∧ (∀ k, Request.formLookup r.Form k = none →
          Request.formLookup (a.Merge r).target.Form k = Request.formLookup a.Form k)
      ∧ (∀ k, (Request.formLookup (a.Merge r).target.Form k).isSome = true →
          (Request.formLookup r.Form k).isSome = true
            ∨ (Request.formLookup a.Form k).isSome = true)
      ∧ (∀ k, (Request.formLookup a.Form k).isSome = true →
          (Request.formLookup (a.Merge r).target.Form k).isSome = true) := by
  cases hm : a.Form with
  | none =>
    have ht := Merge_form_of_none a r hm
    refine ⟨fun h => absurd rfl h, ?_, ?_, ?_⟩
    · intro k _
      rw [ht]
    · intro k hk
      rw [ht] at hk
      simp [Request.formLookup] at hk
    · intro k hk
      simp [Request.formLookup] at hk
  | some m =>
    have hl := Merge_form_lookup_of_some a r m hm
    refine ⟨fun _ => ⟨?_, ?_⟩, ?_, ?_, ?_⟩
    · simp only [Request.Merge, Request.GetRequestForm, hm, mergeForm_of_some]
    · intro k v hk
      rw [hl k, hk]
    · intro k hk
      rw [hl k, hk]
      rfl
    · intro k hk
      rw [hl k] at hk
      cases hr : Request.formLookup r.Form k with
      | some v => exact Or.inl rfl
      | none =>
        rw [hr] at hk
        exact Or.inr hk
    · intro k hk
      rw [hl k]
      cases hr : Request.formLookup r.Form k with
      | some v => rfl
      | none => exact hk

/-- Witness of C11, amended: a target form `a = [1]` merged with a source form `k = [v]`. -/
theorem Merge_form_union_witness :
    (requestWithForm "a" ["1"]).Form ≠ none
      ∧ ((requestWithForm "a" ["1"]).Merge (requestWithForm "k" ["v"])).panicked = false
      ∧ Request.formLookup
          ((requestWithForm "a" ["1"]).Merge (requestWithForm "k" ["v"])).target.Form "k"
            = some ["v"]
      ∧ Request.formLookup
          ((requestWithForm "a" ["1"]).Merge (requestWithForm "k" ["v"])).target.Form "a"
            = some ["1"] :=
  ⟨by simp [requestWithForm],
   ((Merge_form_union (requestWithForm "a" ["1"]) (requestWithForm "k" ["v"])).1
      (by simp [requestWithForm])).1,
   ((Merge_form_union (requestWithForm "a" ["1"]) (requestWithForm "k" ["v"])).1
      (by simp [requestWithForm])).2 "k" ["v"] (by decide),
   by decide⟩

/-- Counterexample to C12 as stated: target and source both grant `read` once; after
`Merge` the target grants `read` twice. -/
theorem Merge_granted_duplicate_counterexample :
    (requestGranted ["read"]).GrantedScopes.Nodup
      ∧ (requestGranted ["read"]).GrantedScopes.Nodup
      ∧ ((requestGranted ["read"]).Merge (requestGranted ["read"])).target.GrantedScopes
          = ["read", "read"]
      ∧ ¬ ((requestGranted ["read"]).Merge (requestGranted ["read"])).target.GrantedScopes.Nodup := by
  decide

/-- C12, amended: from granted scopes without a duplicate, `GrantScope`, `SetScopes` and
`SetSession` leave granted scopes without a duplicate; `Merge` with a source whose granted
scopes have no duplicate does so exactly when no granted scope of the source is already
granted in the target. -/
theorem granted_nodup_invariant (a r : Request σ) (s : String) (scopes : Arguments)
    (session : Option σ) (ha : a.GrantedScopes.Nodup) (hr : r.GrantedScopes.Nodup) :
    (a.GrantScope s).GrantedScopes.Nodup
      ∧ (a.SetScopes scopes).GrantedScopes.Nodup
      ∧ (a.SetSession session).GrantedScopes.Nodup
      ∧ ((a.Merge r).target.GrantedScopes.Nodup
          ↔ List.Disjoint a.GrantedScopes r.GrantedScopes) := by
  refine ⟨GrantScope_nodup a s ha, ha, ha, ?_⟩
  have hg : (a.Merge r).target.GrantedScopes = a.GrantedScopes ++ r.GrantedScopes := by
    simp [Request.Merge, Request.GetGrantedScopes, foldl_append_singleton]
  rw [hg, List.nodup_append]
  exact ⟨fun h => h.2.2, fun h => ⟨ha, hr, h⟩⟩

/-- Witness of C12, amended: the target grants `read`, the source grants `write`. -/
theorem granted_nodup_invariant_witness :
    ((requestGranted ["read"]).GrantScope "read").GrantedScopes.Nodup
      ∧ ((requestGranted ["read"]).Merge (requestGranted ["write"])).target.GrantedScopes.Nodup :=
  ⟨(granted_nodup_invariant (requestGranted ["read"]) (requestGranted ["write"]) "read" []
      none (by decide) (by decide)).1,
   (granted_nodup_invariant (requestGranted ["read"]) (requestGranted ["write"]) "read" []
      none (by decide) (by decide)).2.2.2.2 (by simp [requestGranted, NewRequest])⟩

end RequestModelForm

/-! ## The `expires_in` value -/

section ExpiresIn

variable {σ : Type}

/-- C19: for a lifespan `d` in the range of `int64`, the `expires_in` pair written by the
implicit handler carries the base-10 rendering of `d / 1000000000` truncated toward zero:
`n` whole seconds give the rendering of `n`, a remainder below one second is dropped and
never rounded up (3600 s gives `3600`, 1.5 s gives `1`, 999 ms gives `0`, -1.5 s gives `-1`). -/
theorem expires_in_truncates (c : AuthorizeImplicitGrantTypeHandler σ) (w : Run σ)
    (token signature : String)
    (hd : inInt64 c.AccessTokenLifespan)
    (hgen : c.AccessTokenStrategy.GenerateAccessToken w.ar = Except.ok (token, signature))
    (hst : c.AccessTokenStorage.CreateAccessTokenSession signature w.ar = none) :
    (c.IssueImplicitAccessToken w).2.resp.Fragment
        = w.resp.Fragment ++
            [("access_token", token),
             ("expires_in", Itoa (Int.tdiv c.AccessTokenLifespan 1000000000)),
             ("token_type", "bearer"),
             ("state", w.ar.State),
             ("scope", Join w.ar.Request.GrantedScopes "+")]
      ∧ (∀ n : Int, inInt64 (n * 1000000000) →
          Itoa (goInt (durationDiv (n * 1000000000) Second)) = Itoa n)
      ∧ (∀ n r : Int, 0 ≤ n → 0 ≤ r → r < 1000000000 → inInt64 (n * 1000000000 + r) →
          Itoa (goInt (durationDiv (n * 1000000000 + r) Second)) = Itoa n)
      ∧ (∀ n r : Int, 0 ≤ n → 0 ≤ r → r < 1000000000 → inInt64 (-(n * 1000000000 + r)) →
          Itoa (goInt (durationDiv (-(n * 1000000000 + r)) Second)) = Itoa (-n))
      ∧ Itoa (goInt (durationDiv 3600000000000 Second)) = "3600"
      ∧ Itoa (goInt (durationDiv 1500000000 Second)) = "1"
      ∧ Itoa (goInt (durationDiv 999000000 Second)) = "0"
      ∧ Itoa (goInt (durationDiv (-1500000000) Second)) = "-1" := by
  have hpos : ∀ n r : Int, 0 ≤ n → 0 ≤ r → r < 1000000000 →
      Int.tdiv (n * 1000000000 + r) 1000000000 = n := by
    intro n r hn hr hlt
    rw [Int.tdiv_eq_ediv (by omega) (by norm_num)]
    omega
  refine ⟨?_, ?_, ?_, ?_, by decide, by decide, by decide, by decide⟩
  · rw [Issue_of_success c w token signature hgen hst, expires_in_seconds _ hd]
  · intro n hn
    rw [expires_in_seconds _ hn, Int.mul_tdiv_cancel n (by norm_num)]
  · intro n r hn hr hlt hin
    rw [expires_in_seconds _ hin, hpos n r hn hr hlt]
  · intro n r hn hr hlt hin
    rw [expires_in_seconds _ hin, Int.neg_tdiv, hpos n r hn hr hlt]

/-- Witness of C19: a lifespan of 1.5 s, written as `1`. -/
theorem expires_in_truncates_witness :
    ((exampleHandler (Except.ok ("tok", "sig")) none 1500000000).IssueImplicitAccessToken
        (exampleRun ["token"] ["token"] ["implicit"])).2.resp.Fragment
      = [("access_token", "tok"), ("expires_in", "1"), ("token_type", "bearer"),
         ("state", "xyz"), ("scope", "read+write")]
    ∧ ((exampleHandler (Except.ok ("tok", "sig")) none 1500000000).IssueImplicitAccessToken
        (exampleRun ["token"] ["token"] ["implicit"])).2.resp.Fragment
      = (exampleRun ["token"] ["token"] ["implicit"]).resp.Fragment ++
          [("access_token", "tok"),
           ("expires_in", Itoa (Int.tdiv 1500000000 1000000000)),
           ("token_type", "bearer"),
           ("state", (exampleRun ["token"] ["token"] ["implicit"]).ar.State),
           ("scope", Join (exampleRun ["token"] ["token"] ["implicit"]).ar.Request.GrantedScopes "+")] :=
  ⟨by decide,
   (expires_in_truncates (exampleHandler (Except.ok ("tok", "sig")) none 1500000000)
      (exampleRun ["token"] ["token"] ["implicit"]) "tok" "sig" (by decide) rfl rfl).1⟩

end ExpiresIn

/-! ## Properties of the JWT strategy -/

section JWT

variable {ν κ : Type}

/-- C20: for every map `a` (an allocated map, as the header of `jwt.New` that `Generate`
passes always is) and every map `b`, `assign(a, b)` returns a map that gives every key of
`a` the value `a` had, gives every key of `b` that is not in `a` the value of `b`, and has
no other key; so an entry that the header of the token already has, such as `alg` and `typ`,
is not changed by the header of the caller. With `b` nil or empty, `assign(a, b)` returns
`a` unchanged. -/
theorem assign_keeps_existing (m : JMap ν) (a b : Option (JMap ν)) :
    (assign (some m) b).panicked = false
      ∧ (∃ m2 : JMap ν, (assign (some m) b).result = some m2
          ∧ (∀ k v, m.lookup k = some v → m2.lookup k = some v)
          ∧ (∀ k, m.lookup k = none → m2.lookup k = mapLookup b k)
          ∧ (∀ k, (m2.lookup k).isSome = true →
              (m.lookup k).isSome = true ∨ (mapLookup b k).isSome = true))
      ∧ (assign a none).result = a ∧ (assign a none).panicked = false
      ∧ (assign a (some ∅)).result = a ∧ (assign a (some ∅)).panicked = false := by
  obtain ⟨hp, m2, hr, hl⟩ := assignLoop_some (mapEntries b) m
  refine ⟨hp, ⟨m2, hr, ?_, ?_, ?_⟩, rfl, rfl, rfl, rfl⟩
  · intro k v hk
    rw [hl k, hk]
  · intro k hk
    rw [hl k, hk]
    exact mapEntries_dlookup b k
  · intro k hk
    rw [hl k] at hk
    cases hm : m.lookup k with
    | some v => exact Or.inl rfl
    | none =>
      rw [hm] at hk
      simp only at hk
      rw [mapEntries_dlookup] at hk
      exact Or.inr hk

/-- Witness of C20: the header of a fresh token merged with a header of the caller that
names another algorithm keeps `alg = RS256` and gains `kid = 1`; `Generate`, run with a
library whose signing string shows the `alg` entry it is given, signs `RS256`. -/
theorem assign_keeps_existing_witness :
    (∃ m2 : JMap String,
      (assign (some exampleNewHeader) (some exampleCallerHeader)).result = some m2
        ∧ m2.lookup "alg" = some "RS256"
        ∧ m2.lookup "kid" = some "1")
      ∧ (RS256JWTStrategy.Generate exampleRevealingLibrary { PrivateKey := () }
            (some { ToMap := none }) (some { ToMap := some exampleCallerHeader })).token
          = "RS256.c.s" :=
  ⟨(assign_keeps_existing exampleNewHeader none (some exampleCallerHeader)).2.1.imp
      (fun _ h => ⟨h.1, h.2.1 "alg" "RS256" (by decide),
        (h.2.2.1 "kid" (by decide)).trans (by decide)⟩),
   by decide⟩

/-- C14: `Generate` returns an error with an empty token and an empty signature, and calls
neither `SigningString` nor `Sign`, whenever the claims or the header are nil; a return
without error needs both. -/
theorem Generate_nil_rejected (lib : JWTLibrary ν κ) (j : RS256JWTStrategy κ)
    (claims header : Option (Mapper ν)) :
    (claims = none ∨ header = none →
        j.Generate lib claims header
          = { token := "", signature := "", err := some "Either claims or header is nil."
              calls := [] })
      ∧ ((j.Generate lib claims header).err = none → claims ≠ none ∧ header ≠ none) := by
  constructor
  · intro h
    cases header with
    | none => rfl
    | some hd =>
      cases claims with
      | none => rfl
      | some cl => rcases h with h | h <;> exact absurd h (by simp)
  · intro h
    cases header with
    | none => simp [RS256JWTStrategy.Generate] at h
    | some hd =>
      cases claims with
      | none => simp [RS256JWTStrategy.Generate] at h
      | some cl => exact ⟨by simp, by simp⟩

/-- Witness of C14: claims supplied, header nil; header supplied, claims nil. -/
theorem Generate_nil_rejected_witness :
    (RS256JWTStrategy.Generate exampleLibrary { PrivateKey := () }
        (some { ToMap := none }) none
      = { token := "", signature := "", err := some "Either claims or header is nil."
          calls := [] })
    ∧ (RS256JWTStrategy.Generate exampleLibrary { PrivateKey := () }
        none (some { ToMap := some exampleCallerHeader })
      = { token := "", signature := "", err := some "Either claims or header is nil."
          calls := [] }) :=
  ⟨(Generate_nil_rejected exampleLibrary { PrivateKey := () } (some { ToMap := none }) none).1
      (Or.inr rfl),
   (Generate_nil_rejected exampleLibrary { PrivateKey := () } none
      (some { ToMap := some exampleCallerHeader })).1 (Or.inl rfl)⟩

/-- C18: `GetSignature(t)` succeeds exactly when `t` holds two delimiters `.`; it then
returns what follows the second one; a failure returns the empty string with the error;
the result is the same for every strategy value, whatever its key. -/
theorem GetSignature_spec (j : RS256JWTStrategy κ) (t : String) :
    ((j.GetSignature t).2 = none ↔ t.data.count '.' = 2)
      ∧ ((j.GetSignature t).2 = none →
          ∃ a b : List Char, '.' ∉ a ∧ '.' ∉ b
            ∧ t.data = a ++ '.' :: (b ++ '.' :: (j.GetSignature t).1.data))
      ∧ ((j.GetSignature t).2 ≠ none →
          j.GetSignature t = ("", some "Header, body and signature must all be set"))
      ∧ (∀ (κ2 : Type) (j2 : RS256JWTStrategy κ2), j2.GetSignature t = j.GetSignature t) := by
  have hlen := splitDot_length t.data
  by_cases h3 : (splitDot t.data).length = 3
  · obtain ⟨a, b, c, habc⟩ := List.length_eq_three.1 h3
    have hg := GetSignature_of_three j t a b c habc
    have hjoin := joinDot_splitDot t.data
    have hnd := splitDot_no_dot t.data
    rw [habc] at hjoin hnd
    refine ⟨?_, ?_, ?_, ?_⟩
    · rw [hg]
      constructor
      · intro _; omega
      · intro _; rfl
    · intro _
      refine ⟨a, b, hnd a (by simp), hnd b (by simp), ?_⟩
      rw [hg, ← hjoin]
      simp [joinDot]
    · intro hne
      rw [hg] at hne
      exact absurd rfl hne
    · intro κ2 j2
      rw [hg, GetSignature_of_three j2 t a b c habc]
  · have hg := GetSignature_of_not_three j t h3
    refine ⟨?_, ?_, ?_, ?_⟩
    · rw [hg]
      constructor
      · intro h; simp at h
      · intro h; exact absurd (by omega) h3
    · intro h
      rw [hg] at h
      simp at h
    · intro _
      exact hg
    · intro κ2 j2
      rw [hg, GetSignature_of_not_three j2 t h3]

/-- Witness of C18: `h.c.s` gives `s`; the unsigned looking `..` gives the empty third
segment without error. -/
theorem GetSignature_spec_witness :
    (RS256JWTStrategy.GetSignature ({ PrivateKey := () } : RS256JWTStrategy Unit) "h.c.s").2 = none
      ∧ (∃ a b : List Char, '.' ∉ a ∧ '.' ∉ b
          ∧ "h.c.s".data = a ++ '.' :: (b ++ '.' ::
              (RS256JWTStrategy.GetSignature ({ PrivateKey := () } : RS256JWTStrategy Unit)
                "h.c.s").1.data))
      ∧ RS256JWTStrategy.GetSignature ({ PrivateKey := () } : RS256JWTStrategy Unit) "h.c.s"
          = ("s", none)
      ∧ RS256JWTStrategy.GetSignature ({ PrivateKey := () } : RS256JWTStrategy Unit) ".."
          = ("", none)
      ∧ RS256JWTStrategy.GetSignature ({ PrivateKey := () } : RS256JWTStrategy Unit) "h.c"
          = ("", some "Header, body and signature must all be set") :=
  ⟨by decide,
   (GetSignature_spec ({ PrivateKey := () } : RS256JWTStrategy Unit) "h.c.s").2.1 (by decide),
   by decide, by decide, by decide⟩

end JWT

/-! ## Properties of the pipeline dispatcher -/

section Dispatcher

variable {σ S : Type}

/-- C17: when, after the full pass over the registered handlers, a declared type is not
marked as handled, the pipeline returns the error of the endpoint (`unsupported_grant_type`
or `unsupported_response_type`) and hands no response to the caller; with no handler
registered, or with handlers that all decline, the state of the run is untouched, so no
token is issued; the check is made after the pass: a handler that declines is not an error
by itself. For the authorize endpoint with implicit grant handlers only, a request that
does not declare exactly `token` ends so. -/
theorem dispatch_unhandled (ep : Endpoint S) (handlers : List (S → Option WrappedError × S))
    (w : S) (cs : List (AuthorizeImplicitGrantTypeHandler σ)) (r : Run σ) :
    (∀ w1, Dispatcher.pass handlers w = (none, w1) → Dispatcher.allHandled ep w1 = false →
        Dispatcher.dispatch ep handlers w = (some (Wrap ep.unsupported ""), w1))
      ∧ (Dispatcher.allHandled ep w = false →
          Dispatcher.dispatch ep [] w = (some (Wrap ep.unsupported ""), w))
      ∧ ((∀ f ∈ handlers, f w = (none, w)) → Dispatcher.allHandled ep w = false →
          Dispatcher.dispatch ep handlers w = (some (Wrap ep.unsupported ""), w))
      ∧ (∀ f, f w = (none, w) →
          Dispatcher.dispatch ep (f :: handlers) w = Dispatcher.dispatch ep handlers w)
      ∧ (r.ar.ResponseTypes ≠ ["token"] → Dispatcher.allHandled authorizeEndpoint r = false →
          Dispatcher.dispatch authorizeEndpoint
              (cs.map AuthorizeImplicitGrantTypeHandler.HandleAuthorizeEndpointRequest) r
            = (some { cause := ErrorCode.unsupported_response_type, message := "" }, r)) := by
  refine ⟨?_, ?_, ?_, ?_, ?_⟩
  · intro w1 hp hu
    exact dispatch_of_pass ep handlers w w1 hp hu
  · intro hu
    exact dispatch_of_pass ep [] w w rfl hu
  · intro hd hu
    exact dispatch_of_pass ep handlers w w (pass_of_all_decline handlers w hd) hu
  · intro f hf
    simp [Dispatcher.dispatch, Dispatcher.pass, hf]
  · intro hx hu
    have hd : ∀ f ∈ cs.map AuthorizeImplicitGrantTypeHandler.HandleAuthorizeEndpointRequest,
        f r = (none, r) := by
      intro f hf
      obtain ⟨c, _, rfl⟩ := List.mem_map.1 hf
      exact Handle_of_not_exact c r hx
    exact dispatch_of_pass authorizeEndpoint _ r r (pass_of_all_decline _ r hd) hu

/-- Witness of C17: the token endpoint with no handler registered and the grant type
`client_credentials` declared; the authorize endpoint with one implicit grant handler and
the response type `code` declared, where no fragment is written and no collaborator is
invoked. -/
theorem dispatch_unhandled_witness :
    Dispatcher.dispatch tokenEndpoint []
        { GrantTypes := ["client_credentials"], HandledGrantTypes := [], AccessToken := "" }
      = (some { cause := ErrorCode.unsupported_grant_type, message := "" },
          { GrantTypes := ["client_credentials"], HandledGrantTypes := [], AccessToken := "" })
    ∧ (Dispatcher.dispatch authorizeEndpoint
        ([exampleHandler (Except.ok ("tok", "sig")) none 3600000000000].map
          AuthorizeImplicitGrantTypeHandler.HandleAuthorizeEndpointRequest)
        (exampleRun ["code"] ["token"] ["implicit"])).1
      = some { cause := ErrorCode.unsupported_response_type, message := "" }
    ∧ (Dispatcher.dispatch authorizeEndpoint
        ([exampleHandler (Except.ok ("tok", "sig")) none 3600000000000].map
          AuthorizeImplicitGrantTypeHandler.HandleAuthorizeEndpointRequest)
        (exampleRun ["code"] ["token"] ["implicit"])).2.resp.Fragment = []
    ∧ storageCalls (Dispatcher.dispatch authorizeEndpoint
        ([exampleHandler (Except.ok ("tok", "sig")) none 3600000000000].map
          AuthorizeImplicitGrantTypeHandler.HandleAuthorizeEndpointRequest)
        (exampleRun ["code"] ["token"] ["implicit"])).2.calls = 0 :=
  ⟨(dispatch_unhandled tokenEndpoint []
      { GrantTypes := ["client_credentials"], HandledGrantTypes := [], AccessToken := "" }
      ([] : List (AuthorizeImplicitGrantTypeHandler Unit))
      (exampleRun ["code"] ["token"] ["implicit"])).2.1 (by decide),
   by rw [(dispatch_unhandled tokenEndpoint []
      { GrantTypes := ["client_credentials"], HandledGrantTypes := [], AccessToken := "" }
      [exampleHandler (Except.ok ("tok", "sig")) none 3600000000000]
      (exampleRun ["code"] ["token"] ["implicit"])).2.2.2.2 (by decide) (by decide)],
   by rw [(dispatch_unhandled tokenEndpoint []
      { GrantTypes := ["client_credentials"], HandledGrantTypes := [], AccessToken := "" }
      [exampleHandler (Except.ok ("tok", "sig")) none 3600000000000]
      (exampleRun ["code"] ["token"] ["implicit"])).2.2.2.2 (by decide) (by decide)]; rfl,
   by rw [(dispatch_unhandled tokenEndpoint []
      { GrantTypes := ["client_credentials"], HandledGrantTypes := [], AccessToken := "" }
      [exampleHandler (Except.ok ("tok", "sig")) none 3600000000000]
      (exampleRun ["code"] ["token"] ["implicit"])).2.2.2.2 (by decide) (by decide)]; rfl⟩

end Dispatcher

end Fosite
